import Mathlib

/-!
Shallow embedding of the agent lifecycle and orchestration subsystem of the
twitch chat scraper (src/agents/agent.rs, src/agents/orchestrator.rs,
src/browser/manager.rs).  Hash maps are modelled as association lists with
distinct keys, UUID generation as a fresh counter threaded through the
orchestrator state, time instants as natural numbers (milliseconds or seconds
as appropriate), and the outcomes of calls into the excluded collaborators
(browser, HTML parser, config source, md5 digest) as explicit parameters.
-/

/-- Association list lookup, modelling `HashMap::get`. -/
def alookup {κ α : Type} [DecidableEq κ] : List (κ × α) → κ → Option α
  | [], _ => none
  | p :: rest, k => if p.1 = k then some p.2 else alookup rest k

/-- Association list key removal, modelling `HashMap::remove`. -/
def aerase {κ α : Type} [DecidableEq κ] (l : List (κ × α)) (k : κ) : List (κ × α) :=
  l.filter (fun p => p.1 ≠ k)

/-- Association list insertion, modelling `HashMap::insert` (replaces any
existing binding for the key). -/
def ainsert {κ α : Type} [DecidableEq κ] (l : List (κ × α)) (k : κ) (v : α) : List (κ × α) :=
  (k, v) :: aerase l k

/-- Agent identifiers (`AgentId = Uuid` in agent.rs); modelled as naturals
handed out by a fresh counter. -/
abbrev AgentId := Nat

/-- The agent status tag from agent.rs. -/
inductive AgentStatus : Type
  | Idle
  | Starting
  | Running
  | Stopping
  | Stopped
  | Error (reason : String)
deriving DecidableEq

/-- Per-agent metrics from agent.rs (durations and timestamps as `Nat`). -/
structure AgentMetrics : Type where
  messages_scraped : Nat
  uptime : Nat
  error_count : Nat
  last_message_time : Option Nat
  network_latency : Nat
  memory_usage : Nat
  status : AgentStatus
deriving DecidableEq

/-- The error enum from error.rs. -/
inductive ScrapingError : Type
  | NetworkError (msg : String)
  | BrowserError (msg : String)
  | ParseError (msg : String)
  | StorageError (msg : String)
  | ConfigError (msg : String)
  | ResourceLimit (msg : String)
  | AgentError (msg : String)
  | TUIError (msg : String)
deriving DecidableEq

/-- The `Display` rendering of `ScrapingError` given by the thiserror
attributes in error.rs. -/
def ScrapingError.display : ScrapingError → String
  | .NetworkError m => "Network error: " ++ m
  | .BrowserError m => "Browser error: " ++ m
  | .ParseError m => "Parse error: " ++ m
  | .StorageError m => "Storage error: " ++ m
  | .ConfigError m => "Configuration error: " ++ m
  | .ResourceLimit m => "Resource limit reached: " ++ m
  | .AgentError m => "Agent error: " ++ m
  | .TUIError m => "TUI error: " ++ m

/-- Chat message user info from parser/chat_message.rs. -/
structure ChatUser : Type where
  username : String
  display_name : String
  color : Option String
  badges : List String
deriving DecidableEq

/-- A fragment of a chat message from parser/chat_message.rs. -/
structure MessageFragment : Type where
  fragment_type : String
  content : String
deriving DecidableEq

/-- Message content from parser/chat_message.rs. -/
structure MessageContent : Type where
  text : String
  emotes : List String
  fragments : List MessageFragment
deriving DecidableEq

/-- Stream context from parser/chat_message.rs. -/
structure StreamContext : Type where
  viewer_count : Option Nat
  game_category : Option String
  stream_title : Option String
deriving DecidableEq

/-- A parsed chat message from parser/chat_message.rs (timestamp as `Nat`). -/
structure ChatMessage : Type where
  id : String
  streamer : String
  timestamp : Nat
  user : ChatUser
  message : MessageContent
  context : StreamContext
deriving DecidableEq

/-- The agent-related configuration from config/mod.rs (`AgentConfig`). -/
structure AgentConfig : Type where
  max_concurrent : Nat
  retry_attempts : Nat
  delay_range : Nat × Nat
  proxy_list : Option (List String)
deriving DecidableEq

/-- The configuration record from config/mod.rs restricted to the fields the
orchestrator core reads (`streamers` and `agents`); the output, monitoring
and stealth sections are never consulted by the embedded operations. -/
structure Config : Type where
  streamers : List String
  agents : AgentConfig
deriving DecidableEq

/-- The assignment record from orchestrator.rs. -/
structure AgentAssignment : Type where
  agent_id : AgentId
  streamer : String
  assigned_at : Nat
  priority : Nat
  retry_attempts : Nat
  last_failure : Option Nat
deriving DecidableEq

/-- The part of a `ScrapingAgent` the orchestrator stores in its agents map
that the embedded operations can observe. -/
structure AgentRec : Type where
  id : AgentId
  streamer : String
  status : AgentStatus
deriving DecidableEq

/-- The orchestrator state: the fields of `AgentOrchestrator` read or written
by the embedded operations.  `maxConcurrent` is the `max_concurrent` field
captured at construction time (orchestrator.rs line 112), distinct from the
live `config.agents.max_concurrent`.  `nextId` models the supply of fresh
UUIDs. -/
structure OState : Type where
  agents : List (AgentId × AgentRec)
  assignments : List (AgentId × AgentAssignment)
  config : Config
  maxConcurrent : Nat
  totalSpawned : Nat
  errorCount : Nat
  nextId : AgentId
deriving DecidableEq

/-- `AgentOrchestrator::new`: empty maps, counters at zero, and the
concurrency ceiling captured from the configuration at construction. -/
def AgentOrchestrator.new (config : Config) : OState :=
  { agents := []
    assignments := []
    config := config
    maxConcurrent := config.agents.max_concurrent
    totalSpawned := 0
    errorCount := 0
    nextId := 0 }

/-- `spawn_agent` (orchestrator.rs lines 284-366).  `startErr` is the outcome
of `agent.start(streamer)` under its 30s timeout: `none` for success, `some e`
for a start failure or timeout, in which case the agent is not registered and
the state is returned unchanged.  On success the agent and a fresh assignment
are inserted and the spawn counter is incremented. -/
def spawn_agent (st : OState) (streamer : String) (priority : Nat)
    (startErr : Option ScrapingError) (now : Nat) :
    Except ScrapingError AgentId × OState :=
  if st.agents.length ≥ st.maxConcurrent then
    (.error (.ResourceLimit "Maximum concurrent agents reached"), st)
  else
    match startErr with
    | some e => (.error e, st)
    | none =>
      let agent_id := st.nextId
      let assignment : AgentAssignment :=
        { agent_id := agent_id
          streamer := streamer
          assigned_at := now
          priority := priority
          retry_attempts := 0
          last_failure := none }
      (.ok agent_id,
        { st with
          agents := ainsert st.agents agent_id
            { id := agent_id, streamer := streamer, status := .Running }
          assignments := ainsert st.assignments agent_id assignment
          totalSpawned := st.totalSpawned + 1
          nextId := st.nextId + 1 })

/-- `stop_agent` (orchestrator.rs lines 369-390): removes the agent from the
agents map and, if it was present, its assignment; a no-op on an absent id.
The boolean reports whether an agent was actually removed and stopped. -/
def stop_agent (st : OState) (agent_id : AgentId) : OState × Bool :=
  match alookup st.agents agent_id with
  | none => (st, false)
  | some _ =>
    ({ st with
        agents := aerase st.agents agent_id
        assignments := aerase st.assignments agent_id }, true)

/-- Whether some assignment already covers the streamer, as checked by
`distribute_agents` (`assignments.values().any(|a| a.streamer == *streamer)`). -/
def streamerAssigned (st : OState) (streamer : String) : Bool :=
  st.assignments.any (fun p => p.2.streamer = streamer)

/-- First phase of `distribute_agents` (orchestrator.rs lines 223-232):
iterate over a snapshot of the assignments and stop every agent whose
streamer is no longer configured.  Returns the state and the number of
agents actually stopped. -/
def distStopLoop (streamers : List String) :
    List (AgentId × AgentAssignment) → OState → Nat → OState × Nat
  | [], st, n => (st, n)
  | p :: rest, st, n =>
    if p.2.streamer ∈ streamers then distStopLoop streamers rest st n
    else
      let r := stop_agent st p.1
      distStopLoop streamers rest r.1 (n + if r.2 then 1 else 0)

/-- Second phase of `distribute_agents` (orchestrator.rs lines 241-274):
walk the configured streamer list with its indices, break once
`assigned_count` reaches the configured ceiling, count streamers that already
have an agent, and spawn (priority = index) for those that do not, counting
`error_count` up on spawn failures.  `startErr i` is the start outcome for a
spawn attempted at streamer index `i`.  Returns the state and the number of
successful spawns. -/
def distSpawnLoop (maxc : Nat) (startErr : Nat → Option ScrapingError) (now : Nat) :
    List (Nat × String) → OState → Nat → OState × Nat
  | [], st, _ => (st, 0)
  | (idx, s) :: rest, st, count =>
    if count ≥ maxc then (st, 0)
    else if streamerAssigned st s then
      distSpawnLoop maxc startErr now rest st (count + 1)
    else
      match spawn_agent st s idx (startErr idx) now with
      | (.ok _, st') =>
        let r := distSpawnLoop maxc startErr now rest st' (count + 1)
        (r.1, r.2 + 1)
      | (.error _, st') =>
        distSpawnLoop maxc startErr now rest
          { st' with errorCount := st'.errorCount + 1 } count

/-- Result of `distribute_agents`: final state plus how many agents the call
stopped and spawned. -/
structure DistResult : Type where
  st : OState
  stopped : Nat
  spawned : Nat
deriving DecidableEq

/-- `distribute_agents` (orchestrator.rs lines 214-281). -/
def distribute_agents (st : OState) (startErr : Nat → Option ScrapingError)
    (now : Nat) : DistResult :=
  let streamers := st.config.streamers
  let maxc := st.config.agents.max_concurrent
  let r1 := distStopLoop streamers st.assignments st 0
  let r2 := distSpawnLoop maxc startErr now streamers.enum r1.1 0
  { st := r2.1, stopped := r1.2, spawned := r2.2 }

/-- `update_config` (orchestrator.rs lines 469-495): swap the stored
configuration, then redistribute only if the streamer list changed. -/
def update_config (st : OState) (new_config : Config)
    (startErr : Nat → Option ScrapingError) (now : Nat) : OState :=
  let old_streamers := st.config.streamers
  let st1 := { st with config := new_config }
  if old_streamers ≠ new_config.streamers then (distribute_agents st1 startErr now).st
  else st1

/-- `restart_agent` (orchestrator.rs lines 498-531): take the assignment out
of the table (error if absent), stop the old agent, bump the retry counter and
failure time, spawn a replacement for the same streamer and priority, and
re-key the updated assignment under the new agent id (overwriting the fresh
assignment record `spawn_agent` created). -/
def restart_agent (st : OState) (agent_id : AgentId)
    (startErr : Option ScrapingError) (now : Nat) :
    Except ScrapingError Unit × OState :=
  match alookup st.assignments agent_id with
  | none => (.error (.AgentError "Agent not found for restart"), st)
  | some a =>
    let st1 := { st with assignments := aerase st.assignments agent_id }
    let st2 := (stop_agent st1 agent_id).1
    let a' := { a with retry_attempts := a.retry_attempts + 1, last_failure := some now }
    match spawn_agent st2 a.streamer a.priority startErr now with
    | (.error e, st3) => (.error e, st3)
    | (.ok new_id, st3) =>
      (.ok (),
        { st3 with
          assignments := ainsert st3.assignments new_id { a' with agent_id := new_id } })

/-- The agent the scale-down branch stops: `max_by_key` over assignment
priorities (ties resolved towards later entries, as in Rust `max_by_key`). -/
def maxPriorityAgent (l : List (AgentId × AgentAssignment)) : Option AgentId :=
  (l.foldl
    (fun acc p =>
      match acc with
      | none => some p
      | some q => if q.2.priority ≤ p.2.priority then some p else some q)
    none).map (·.1)

/-- `scale_agents` (orchestrator.rs lines 534-596).  `cpu` and `memPct` are
the sampled cpu percentage and derived memory percentage; scale down stops
the numerically-highest-priority agent when usage is high and more than one
agent runs, scale up spawns for the first configured streamer without an
assignment when usage is low and below the configured ceiling (spawn failures
are only logged). -/
def scale_agents (st : OState) (cpu memPct : ℚ)
    (startErr : Option ScrapingError) (now : Nat) : OState :=
  let maxc := st.config.agents.max_concurrent
  let streamers := st.config.streamers
  let current_agents := st.agents.length
  if (85 < cpu ∨ 85 < memPct) ∧ 1 < current_agents then
    match maxPriorityAgent st.assignments with
    | some agent_id => (stop_agent st agent_id).1
    | none => st
  else if cpu < 60 ∧ memPct < 70 ∧ current_agents < maxc then
    let assigned_streamers := st.assignments.map (fun p => p.2.streamer)
    match streamers.enum.find?
        (fun p => !(assigned_streamers.contains p.2) && decide (current_agents < maxc)) with
    | some (idx, s) => (spawn_agent st s idx startErr now).2
    | none => st
  else st

instance {ε α : Type} [DecidableEq ε] [DecidableEq α] : DecidableEq (Except ε α) := fun x y =>
  match x, y with
  | .ok a, .ok b => if h : a = b then .isTrue (by rw [h]) else .isFalse (by simp [h])
  | .error a, .error b => if h : a = b then .isTrue (by rw [h]) else .isFalse (by simp [h])
  | .ok _, .error _ => .isFalse (by simp)
  | .error _, .ok _ => .isFalse (by simp)

/-- Result of one call to `ScrapingAgent::extract_and_process_messages`
(agent.rs lines 280-326): the returned count or error, the hash cell after
the call (it is written before parsing, so it is updated even when the parse
fails), the messages published on the broadcast channel, the metrics cell
after the call, and whether the external parser was invoked at all. -/
structure ExtractResult : Type where
  result : Except ScrapingError Nat
  lastHtmlHash : String
  published : List ChatMessage
  metrics : AgentMetrics
  parseCalled : Bool
deriving DecidableEq

/-- `extract_and_process_messages` (agent.rs lines 280-326).  `md5hex` is the
external md5 digest rendered in lowercase hex, `parse_chat_html` the external
parser, and `htmlRes` the outcome of `browser_instance.get_chat_html()` this
tick.  If the digest of the fetched HTML equals the stored hash the call
returns 0 without parsing; otherwise the hash cell is updated, the HTML is
parsed, every parsed message is broadcast, and the metrics are updated when
at least one message was parsed. -/
def extract_and_process_messages
    (md5hex : String → String)
    (parse_chat_html : String → String → Except ScrapingError (List ChatMessage))
    (htmlRes : Except ScrapingError String)
    (streamer : String)
    (lastHtmlHash : String)
    (metrics : AgentMetrics)
    (now latency : Nat) : ExtractResult :=
  match htmlRes with
  | .error e =>
    { result := .error e, lastHtmlHash := lastHtmlHash, published := []
      metrics := metrics, parseCalled := false }
  | .ok html =>
    let current_hash := md5hex html
    if current_hash = lastHtmlHash then
      { result := .ok 0, lastHtmlHash := lastHtmlHash, published := []
        metrics := metrics, parseCalled := false }
    else
      match parse_chat_html html streamer with
      | .error e =>
        { result := .error e, lastHtmlHash := current_hash, published := []
          metrics := metrics, parseCalled := true }
      | .ok parsed_messages =>
        let message_count := parsed_messages.length
        let metrics' :=
          if 0 < message_count then
            { metrics with
              messages_scraped := metrics.messages_scraped + message_count
              last_message_time := some now
              network_latency := latency }
          else metrics
        { result := .ok message_count, lastHtmlHash := current_hash
          published := parsed_messages, metrics := metrics', parseCalled := true }

/-- State visible to one agent monitoring loop (agent.rs lines 185-273):
the shared status and metrics cells, the loop-local hash and consecutive
error counter, whether the loop has exited, the trace of backoff sleeps (in
milliseconds) it performed, and every message it published. -/
structure MonitorState : Type where
  status : AgentStatus
  metrics : AgentMetrics
  lastHtmlHash : String
  consecutiveErrors : Nat
  exited : Bool
  backoffs : List Nat
  published : List ChatMessage
deriving DecidableEq

/-- `ScrapingAgent::set_status` (agent.rs lines 152-158): writes the status
cell and the status field inside the metrics cell. -/
def set_status (st : MonitorState) (status : AgentStatus) : MonitorState :=
  { st with status := status, metrics := { st.metrics with status := status } }

/-- One arm of the monitoring loop select (agent.rs lines 204-269): either
the shutdown signal, or an extraction tick carrying whether
`get_browser_instance` found the instance, the outcome of `get_chat_html`,
and the sampled clock values. -/
inductive MonitorEvent : Type
  | shutdown
  | tick (instanceFound : Bool) (htmlRes : Except ScrapingError String) (now latency : Nat)
deriving DecidableEq

/-- One iteration of the monitoring loop (agent.rs lines 204-269).  A tick
without a browser instance sets only the status cell to `Error` and exits.
On an extraction error the consecutive counter is bumped; a browser-level
error sets only the status cell and exits immediately; otherwise the metrics
error count is bumped and either the consecutive-error ceiling (10) sets only
the status cell and exits, or an exponential backoff sleep of
`1000 * 2 ^ min consecutiveErrors 5` milliseconds is recorded.  Once exited
the loop performs no further work. -/
def monitorStep
    (md5hex : String → String)
    (parse_chat_html : String → String → Except ScrapingError (List ChatMessage))
    (streamer : String)
    (st : MonitorState) (ev : MonitorEvent) : MonitorState :=
  if st.exited then st
  else
    match ev with
    | .shutdown => { st with exited := true }
    | .tick instanceFound htmlRes now latency =>
      if instanceFound then
        let r := extract_and_process_messages md5hex parse_chat_html htmlRes streamer
          st.lastHtmlHash st.metrics now latency
        match r.result with
        | .ok _ =>
          { st with
            consecutiveErrors := 0
            lastHtmlHash := r.lastHtmlHash
            metrics := r.metrics
            published := st.published ++ r.published }
        | .error e =>
          let c := st.consecutiveErrors + 1
          match e with
          | .BrowserError m =>
            { st with
              consecutiveErrors := c
              lastHtmlHash := r.lastHtmlHash
              metrics := r.metrics
              status := .Error ("Browser error: " ++ ScrapingError.display (.BrowserError m))
              exited := true }
          | _ =>
            let m2 := { r.metrics with error_count := r.metrics.error_count + 1 }
            if 10 ≤ c then
              { st with
                consecutiveErrors := c
                lastHtmlHash := r.lastHtmlHash
                metrics := m2
                status := .Error ("Too many consecutive errors: " ++ e.display)
                exited := true }
            else
              { st with
                consecutiveErrors := c
                lastHtmlHash := r.lastHtmlHash
                metrics := m2
                backoffs := st.backoffs ++ [1000 * 2 ^ min c 5] }
      else
        { st with status := .Error "Browser instance not found", exited := true }

/-- The monitoring loop run over a sequence of select outcomes. -/
def monitorRun
    (md5hex : String → String)
    (parse_chat_html : String → String → Except ScrapingError (List ChatMessage))
    (streamer : String)
    (st : MonitorState) (evs : List MonitorEvent) : MonitorState :=
  evs.foldl (monitorStep md5hex parse_chat_html streamer) st

/-- The proxy rotation state of `BrowserPool` (browser/manager.rs): the fixed
proxy list, the rotating index, and the bad-proxy map from proxy to the time
it was reported (seconds). -/
structure ProxyState : Type where
  proxy_list : List String
  proxy_index : Nat
  bad_proxies : List (String × Nat)
deriving DecidableEq

/-- `report_bad_proxy` (browser/manager.rs lines 137-141): records the report
time for the proxy. -/
def report_bad_proxy (ps : ProxyState) (proxy : String) (now : Nat) : ProxyState :=
  { ps with bad_proxies := ainsert ps.bad_proxies proxy now }

/-- The bounded rotation loop inside `get_next_proxy` (browser/manager.rs
lines 384-404): examine at most `fuel` proxies starting at `idx`, advancing
the index modulo the list length each time; skip a proxy whose cooldown
(300 seconds) has not elapsed, re-enable (remove from the bad list) and
return one whose cooldown has elapsed, and return immediately any proxy not
on the bad list. -/
def get_next_proxy_loop (proxy_list : List String) (now : Nat) :
    Nat → Nat → List (String × Nat) → Option String × Nat × List (String × Nat)
  | 0, idx, bad => (none, idx, bad)
  | fuel + 1, idx, bad =>
    let current_proxy := proxy_list.getD idx ""
    let idx' := (idx + 1) % proxy_list.length
    match alookup bad current_proxy with
    | some reported_time =>
      if now - reported_time < 300 then
        get_next_proxy_loop proxy_list now fuel idx' bad
      else
        (some current_proxy, idx', aerase bad current_proxy)
    | none => (some current_proxy, idx', bad)

/-- `get_next_proxy` (browser/manager.rs lines 378-408): nothing on an empty
list; otherwise cycle through the full list at most once and give up with
`none` if every proxy is in cooldown. -/
def get_next_proxy (ps : ProxyState) (now : Nat) : Option String × ProxyState :=
  if ps.proxy_list.isEmpty then (none, ps)
  else
    let r := get_next_proxy_loop ps.proxy_list now ps.proxy_list.length
      ps.proxy_index ps.bad_proxies
    (r.1, { ps with proxy_index := r.2.1, bad_proxies := r.2.2 })

/-- One `spawn_agent` request: the arguments of the call together with the
outcome of the attempted agent start. -/
structure SpawnReq : Type where
  streamer : String
  priority : Nat
  startErr : Option ScrapingError
  now : Nat
deriving DecidableEq

/-- A sequence of `spawn_agent` calls, each leaving the state of a failed
call in place. -/
def spawnMany (st : OState) : List SpawnReq → OState
  | [] => st
  | r :: rs => spawnMany (spawn_agent st r.streamer r.priority r.startErr r.now).2 rs

/-- At most one assignment exists per streamer name. -/
def uniqueStreamers (st : OState) : Prop :=
  List.Pairwise (fun p q => p.2.streamer ≠ q.2.streamer) st.assignments

/-- Well-formedness of the fresh-id counter: every key in the agents and
assignments maps was handed out before `nextId` (the contract of
`Uuid::new_v4`: a newly generated id collides with no live id). -/
def freshIdsOk (st : OState) : Prop :=
  (∀ p ∈ st.agents, p.1 < st.nextId) ∧ ∀ p ∈ st.assignments, p.1 < st.nextId

/-- Every assignment whose streamer is not configured has no live agent
behind it (so `stop_agent` on it is a no-op). -/
def nonmemberOrphaned (st : OState) (streamers : List String) : Prop :=
  ∀ p ∈ st.assignments, p.2.streamer ∉ streamers → alookup st.agents p.1 = none

instance (st : OState) : Decidable (freshIdsOk st) :=
  inferInstanceAs (Decidable ((∀ p ∈ st.agents, p.1 < st.nextId)
    ∧ ∀ p ∈ st.assignments, p.1 < st.nextId))

instance (st : OState) : Decidable (uniqueStreamers st) :=
  inferInstanceAs (Decidable (List.Pairwise _ _))

instance (st : OState) (streamers : List String) :
    Decidable (nonmemberOrphaned st streamers) :=
  inferInstanceAs (Decidable (∀ p ∈ st.assignments, _ → _))

/-- One public orchestrator operation, as listed in claim C2, applied with
arbitrary externally-determined outcomes; direct `spawn_agent` calls are
restricted to streamers without a current assignment. -/
inductive OStep : OState → OState → Prop
  | spawn (st : OState) (s : String) (p : Nat) (se : Option ScrapingError) (now : Nat) :
      streamerAssigned st s = false → OStep st (spawn_agent st s p se now).2
  | stop (st : OState) (agent_id : AgentId) : OStep st (stop_agent st agent_id).1
  | restart (st : OState) (agent_id : AgentId) (se : Option ScrapingError) (now : Nat) :
      OStep st (restart_agent st agent_id se now).2
  | distribute (st : OState) (se : Nat → Option ScrapingError) (now : Nat) :
      OStep st (distribute_agents st se now).st
  | scale (st : OState) (cpu memPct : ℚ) (se : Option ScrapingError) (now : Nat) :
      OStep st (scale_agents st cpu memPct se now)

/-- A concrete configuration value for instantiating the theorems below. -/
def sampleConfig (maxc : Nat) (streamers : List String) : Config :=
  { streamers := streamers
    agents := { max_concurrent := maxc, retry_attempts := 3
                delay_range := (1000, 5000), proxy_list := none } }

/-- The initial metrics record created by `ScrapingAgent::new`. -/
def initialMetrics : AgentMetrics :=
  { messages_scraped := 0, uptime := 0, error_count := 0, last_message_time := none
    network_latency := 0, memory_usage := 0, status := .Idle }

/-- The monitoring-loop state right after a successful `start`: both status
cells were set to `Running` by `set_status`, the hash cell is empty and no
errors have occurred. -/
def initialMonitorState : MonitorState :=
  { status := .Running, metrics := { initialMetrics with status := .Running }
    lastHtmlHash := "", consecutiveErrors := 0, exited := false
    backoffs := [], published := [] }

/-- A concrete assignment record used to instantiate the restart theorem. -/
def sampleRestartAssignment : AgentAssignment :=
  { agent_id := 0, streamer := "a", assigned_at := 0, priority := 2
    retry_attempts := 1, last_failure := none }

/-- A concrete orchestrator state holding one running agent for streamer
"a", used to instantiate the restart theorem. -/
def sampleRestartState : OState :=
  { agents := [(0, { id := 0, streamer := "a", status := .Running })]
    assignments := [(0, sampleRestartAssignment)]
    config := sampleConfig 2 ["a"]
    maxConcurrent := 2
    totalSpawned := 1
    errorCount := 0
    nextId := 1 }

theorem aerase_cons {κ α : Type} [DecidableEq κ] (p : κ × α) (rest : List (κ × α)) (k : κ) :
    aerase (p :: rest) k = if p.1 = k then aerase rest k else p :: aerase rest k := by
  by_cases h : p.1 = k <;> simp [aerase, List.filter_cons, h]

theorem mem_aerase {κ α : Type} [DecidableEq κ] {q : κ × α} {l : List (κ × α)} {k : κ} :
    q ∈ aerase l k ↔ q ∈ l ∧ q.1 ≠ k := by
  simp [aerase, List.mem_filter]

theorem alookup_aerase_self {κ α : Type} [DecidableEq κ] (l : List (κ × α)) (k : κ) :
    alookup (aerase l k) k = none := by
  induction l with
  | nil => rfl
  | cons p rest ih =>
    rw [aerase_cons]
    by_cases h : p.1 = k
    · simpa [h] using ih
    · simpa [alookup, h] using ih

theorem alookup_aerase_ne {κ α : Type} [DecidableEq κ] (l : List (κ × α)) (k k' : κ)
    (h : k' ≠ k) : alookup (aerase l k) k' = alookup l k' := by
  induction l with
  | nil => rfl
  | cons p rest ih =>
    rw [aerase_cons]
    by_cases hp : p.1 = k
    · rw [if_pos hp, ih]
      have hne : p.1 ≠ k' := by rw [hp]; exact fun hk => h hk.symm
      simp [alookup, hne]
    · rw [if_neg hp]
      by_cases hq : p.1 = k' <;> simp [alookup, hq, ih]

theorem alookup_ainsert_self {κ α : Type} [DecidableEq κ] (l : List (κ × α)) (k : κ) (v : α) :
    alookup (ainsert l k v) k = some v := by
  simp [ainsert, alookup]

theorem alookup_ainsert_ne {κ α : Type} [DecidableEq κ] (l : List (κ × α)) (k k' : κ) (v : α)
    (h : k' ≠ k) : alookup (ainsert l k v) k' = alookup l k' := by
  have : k ≠ k' := fun hk => h hk.symm
  simp [ainsert, alookup, this, alookup_aerase_ne l k k' h]

theorem length_ainsert_le {κ α : Type} [DecidableEq κ] (l : List (κ × α)) (k : κ) (v : α) :
    (ainsert l k v).length ≤ l.length + 1 := by
  simpa [ainsert, aerase] using Nat.succ_le_succ (List.length_filter_le _ l)

theorem aerase_eq_self {κ α : Type} [DecidableEq κ] {l : List (κ × α)} {k : κ}
    (h : ∀ q ∈ l, q.1 ≠ k) : aerase l k = l := by
  apply List.filter_eq_self.mpr
  intro q hq
  exact decide_eq_true (h q hq)

theorem alookup_eq_none_iff {κ α : Type} [DecidableEq κ] {l : List (κ × α)} {k : κ} :
    alookup l k = none ↔ ∀ q ∈ l, q.1 ≠ k := by
  induction l with
  | nil => simp [alookup]
  | cons p rest ih =>
    simp only [alookup, List.mem_cons]
    by_cases h : p.1 = k
    · simp only [if_pos h]
      constructor
      · intro hn
        exact absurd hn (by simp)
      · intro hall
        exact absurd h (hall p (Or.inl rfl))
    · simp only [if_neg h, ih]
      constructor
      · rintro hr q (rfl | hq)
        · exact h
        · exact hr q hq
      · intro hr q hq
        exact hr q (Or.inr hq)

theorem alookup_mem {κ α : Type} [DecidableEq κ] {l : List (κ × α)} {k : κ} {v : α}
    (h : alookup l k = some v) : (k, v) ∈ l := by
  induction l with
  | nil => simp [alookup] at h
  | cons p rest ih =>
    by_cases hp : p.1 = k
    · simp only [alookup, if_pos hp] at h
      cases h
      have hmem : (p.1, p.2) ∈ p :: rest := List.mem_cons_self p rest
      rw [hp] at hmem
      exact hmem
    · simp only [alookup, if_neg hp] at h
      exact List.mem_cons_of_mem _ (ih h)

theorem extract_hash_eq (md5hex : String → String)
    (parse : String → String → Except ScrapingError (List ChatMessage))
    (html streamer h0 : String) (m : AgentMetrics) (t l : Nat) :
    (extract_and_process_messages md5hex parse (.ok html) streamer h0 m t l).lastHtmlHash
      = md5hex html := by
  simp only [extract_and_process_messages]
  by_cases heq : md5hex html = h0
  · simp [heq]
  · simp only [if_neg heq]
    cases hp : parse html streamer <;> simp [hp]

/-- Claim C3: running the extraction step twice in succession on the same
HTML payload makes the second run return a count of 0, publish nothing and
invoke no parse, because the stored content hash equals the payload hash
after the first run. -/
theorem extract_second_submission_skips (md5hex : String → String)
    (parse1 parse2 : String → String → Except ScrapingError (List ChatMessage))
    (html streamer h0 : String) (m : AgentMetrics) (t1 l1 t2 l2 : Nat) :
    (extract_and_process_messages md5hex parse1 (.ok html) streamer h0 m t1 l1).lastHtmlHash
      = md5hex html
    ∧ extract_and_process_messages md5hex parse2 (.ok html) streamer
        (extract_and_process_messages md5hex parse1 (.ok html) streamer h0 m t1 l1).lastHtmlHash
        (extract_and_process_messages md5hex parse1 (.ok html) streamer h0 m t1 l1).metrics t2 l2
      = { result := .ok 0
          lastHtmlHash :=
            (extract_and_process_messages md5hex parse1 (.ok html) streamer h0 m t1 l1).lastHtmlHash
          published := []
          metrics :=
            (extract_and_process_messages md5hex parse1 (.ok html) streamer h0 m t1 l1).metrics
          parseCalled := false } := by
  have h1 := extract_hash_eq md5hex parse1 html streamer h0 m t1 l1
  refine ⟨h1, ?_⟩
  rw [h1]
  simp [extract_and_process_messages]

theorem streamerAssigned_iff {st : OState} {s : String} :
    streamerAssigned st s = true ↔ ∃ p ∈ st.assignments, p.2.streamer = s := by
  simp [streamerAssigned, List.any_eq_true]

theorem streamerAssigned_false_iff {st : OState} {s : String} :
    streamerAssigned st s = false ↔ ∀ p ∈ st.assignments, p.2.streamer ≠ s := by
  simp [streamerAssigned, List.any_eq_false]

theorem spawn_agent_maxConcurrent (st : OState) (s : String) (p : Nat)
    (se : Option ScrapingError) (now : Nat) :
    (spawn_agent st s p se now).2.maxConcurrent = st.maxConcurrent := by
  unfold spawn_agent
  split
  · rfl
  · cases se <;> rfl

theorem spawn_agent_length_le (st : OState) (s : String) (p : Nat)
    (se : Option ScrapingError) (now : Nat)
    (h : st.agents.length ≤ st.maxConcurrent) :
    (spawn_agent st s p se now).2.agents.length ≤ st.maxConcurrent := by
  unfold spawn_agent
  split
  · exact h
  next hlt =>
    cases se with
    | some e => exact h
    | none =>
      have h1 : (ainsert st.agents st.nextId
          { id := st.nextId, streamer := s, status := .Running }).length
          ≤ st.agents.length + 1 := length_ainsert_le _ _ _
      exact le_trans h1 (Nat.succ_le_of_lt (Nat.not_le.mp hlt))

theorem spawnMany_maxConcurrent (rs : List SpawnReq) : ∀ st : OState,
    (spawnMany st rs).maxConcurrent = st.maxConcurrent := by
  induction rs with
  | nil => intro st; rfl
  | cons r rest ih =>
    intro st
    rw [spawnMany, ih, spawn_agent_maxConcurrent]

theorem spawnMany_agents_le (rs : List SpawnReq) : ∀ st : OState,
    st.agents.length ≤ st.maxConcurrent →
    (spawnMany st rs).agents.length ≤ st.maxConcurrent := by
  induction rs with
  | nil => intro st h; exact h
  | cons r rest ih =>
    intro st h
    rw [spawnMany]
    have h1 := spawn_agent_length_le st r.streamer r.priority r.startErr r.now h
    have h2 := ih _ (by rw [spawn_agent_maxConcurrent]; exact h1)
    rwa [spawn_agent_maxConcurrent] at h2

/-- Claim C1: over any sequence of `spawn_agent` calls the number of
registered agents never exceeds the `max_concurrent` captured at
construction, and a `spawn_agent` call made when the agents map already
holds `max_concurrent` agents returns the `ResourceLimit` error and leaves
the whole state (agents map, assignments map, spawn counter) unchanged. -/
theorem spawn_agent_capacity_invariant :
    (∀ (cfg : Config) (rs : List SpawnReq),
        (spawnMany (AgentOrchestrator.new cfg) rs).agents.length ≤ cfg.agents.max_concurrent)
    ∧ ∀ (st : OState) (s : String) (p : Nat) (se : Option ScrapingError) (now : Nat),
        st.agents.length = st.maxConcurrent →
        spawn_agent st s p se now
          = (.error (.ResourceLimit "Maximum concurrent agents reached"), st) := by
  constructor
  · intro cfg rs
    exact spawnMany_agents_le rs (AgentOrchestrator.new cfg) (Nat.zero_le _)
  · intro st s p se now h
    have hc : st.agents.length ≥ st.maxConcurrent := le_of_eq h.symm
    unfold spawn_agent
    rw [if_pos hc]

/-- Witness for C1 at a concrete configuration with capacity 1: two spawn
requests leave at most one agent, and a spawn at capacity returns the
`ResourceLimit` error with the state unchanged. -/
theorem spawn_agent_capacity_invariant_witness :
    (spawnMany (AgentOrchestrator.new (sampleConfig 1 ["a", "b"]))
        [⟨"a", 0, none, 0⟩, ⟨"b", 1, none, 0⟩]).agents.length
      ≤ (sampleConfig 1 ["a", "b"]).agents.max_concurrent
    ∧ spawn_agent
        (spawn_agent (AgentOrchestrator.new (sampleConfig 1 ["a", "b"])) "a" 0 none 0).2
        "c" 0 none 5
      = (.error (.ResourceLimit "Maximum concurrent agents reached"),
         (spawn_agent (AgentOrchestrator.new (sampleConfig 1 ["a", "b"])) "a" 0 none 0).2) :=
  ⟨spawn_agent_capacity_invariant.1 (sampleConfig 1 ["a", "b"]) _,
   spawn_agent_capacity_invariant.2 _ "c" 0 none 5 (by decide)⟩

theorem spawn_agent_frame (st : OState) (s : String) (p : Nat)
    (se : Option ScrapingError) (now : Nat) :
    (spawn_agent st s p se now).2.maxConcurrent = st.maxConcurrent
    ∧ (spawn_agent st s p se now).2.config = st.config
    ∧ (spawn_agent st s p se now).2.errorCount = st.errorCount := by
  unfold spawn_agent
  split
  · exact ⟨rfl, rfl, rfl⟩
  · cases se <;> exact ⟨rfl, rfl, rfl⟩

theorem stop_agent_frame (st : OState) (agent_id : AgentId) :
    (stop_agent st agent_id).1.maxConcurrent = st.maxConcurrent
    ∧ (stop_agent st agent_id).1.config = st.config
    ∧ (stop_agent st agent_id).1.errorCount = st.errorCount
    ∧ (stop_agent st agent_id).1.nextId = st.nextId
    ∧ (stop_agent st agent_id).1.totalSpawned = st.totalSpawned := by
  unfold stop_agent
  cases alookup st.agents agent_id <;> exact ⟨rfl, rfl, rfl, rfl, rfl⟩

theorem distStopLoop_frame (streamers : List String) (snap : List (AgentId × AgentAssignment)) :
    ∀ (st : OState) (n : Nat),
    (distStopLoop streamers snap st n).1.maxConcurrent = st.maxConcurrent
    ∧ (distStopLoop streamers snap st n).1.config = st.config
    ∧ (distStopLoop streamers snap st n).1.errorCount = st.errorCount
    ∧ (distStopLoop streamers snap st n).1.nextId = st.nextId := by
  induction snap with
  | nil => intro st n; exact ⟨rfl, rfl, rfl, rfl⟩
  | cons p rest ih =>
    intro st n
    simp only [distStopLoop]
    split
    · exact ih st n
    · have hf := stop_agent_frame st p.1
      have hi := ih (stop_agent st p.1).1 (n + if (stop_agent st p.1).2 then 1 else 0)
      exact ⟨hi.1.trans hf.1, hi.2.1.trans hf.2.1, hi.2.2.1.trans hf.2.2.1,
             hi.2.2.2.trans hf.2.2.2.1⟩

theorem distSpawnLoop_frame (maxc : Nat) (se : Nat → Option ScrapingError) (now : Nat)
    (l : List (Nat × String)) : ∀ (st : OState) (c : Nat),
    (distSpawnLoop maxc se now l st c).1.maxConcurrent = st.maxConcurrent
    ∧ (distSpawnLoop maxc se now l st c).1.config = st.config := by
  induction l with
  | nil => intro st c; exact ⟨rfl, rfl⟩
  | cons p rest ih =>
    obtain ⟨idx, s⟩ := p
    intro st c
    simp only [distSpawnLoop]
    split
    · exact ⟨rfl, rfl⟩
    · split
      · exact ih st (c + 1)
      · rcases hsp : spawn_agent st s idx (se idx) now with ⟨res, st'⟩
        have hf := spawn_agent_frame st s idx (se idx) now
        rw [hsp] at hf
        cases res with
        | ok a =>
          simp only []
          have hi := ih st' (c + 1)
          exact ⟨hi.1.trans hf.1, hi.2.trans hf.2.1⟩
        | error e =>
          simp only []
          have hi := ih { st' with errorCount := st'.errorCount + 1 } c
          exact ⟨hi.1.trans hf.1, hi.2.trans hf.2.1⟩

theorem distribute_agents_frame (st : OState) (se : Nat → Option ScrapingError) (now : Nat) :
    (distribute_agents st se now).st.maxConcurrent = st.maxConcurrent
    ∧ (distribute_agents st se now).st.config = st.config := by
  unfold distribute_agents
  have h1 := distStopLoop_frame st.config.streamers st.assignments st 0
  have h2 := distSpawnLoop_frame st.config.agents.max_concurrent se now
    st.config.streamers.enum (distStopLoop st.config.streamers st.assignments st 0).1 0
  exact ⟨h2.1.trans h1.1, h2.2.trans h1.2.1⟩

/-- Claim C9: the capacity bound enforced by `spawn_agent` is the
`max_concurrent` captured at construction.  `update_config` swaps the stored
configuration (which `distribute_agents` and `scale_agents` then read) but
never changes the captured bound, so a spawn made at the construction-time
ceiling still fails with `ResourceLimit` after the configured
`max_concurrent` was raised. -/
theorem update_config_keeps_spawn_ceiling (st : OState) (new_config : Config)
    (se : Nat → Option ScrapingError) (now : Nat) :
    (update_config st new_config se now).maxConcurrent = st.maxConcurrent
    ∧ (update_config st new_config se now).config.agents.max_concurrent
        = new_config.agents.max_concurrent
    ∧ ∀ (s : String) (p : Nat) (se2 : Option ScrapingError) (now2 : Nat),
        (update_config st new_config se now).agents.length ≥ st.maxConcurrent →
        spawn_agent (update_config st new_config se now) s p se2 now2
          = (.error (.ResourceLimit "Maximum concurrent agents reached"),
             update_config st new_config se now) := by
  have hframe : (update_config st new_config se now).maxConcurrent = st.maxConcurrent
      ∧ (update_config st new_config se now).config = new_config := by
    by_cases hc : st.config.streamers ≠ new_config.streamers
    · simp only [update_config, if_pos hc]
      have h := distribute_agents_frame { st with config := new_config } se now
      exact ⟨h.1, h.2⟩
    · simp [update_config, if_neg hc]
  refine ⟨hframe.1, by rw [hframe.2], ?_⟩
  intro s p se2 now2 hcap
  rw [← hframe.1] at hcap
  unfold spawn_agent
  rw [if_pos hcap]

/-- Witness for C9: an orchestrator built with `max_concurrent = 0` whose
configuration is then raised to `max_concurrent = 5` with an unchanged
streamer list still rejects a spawn with `ResourceLimit`. -/
theorem update_config_keeps_spawn_ceiling_witness :
    (update_config (AgentOrchestrator.new (sampleConfig 0 ["a"]))
        (sampleConfig 5 ["a"]) (fun _ => none) 0).maxConcurrent
      = (AgentOrchestrator.new (sampleConfig 0 ["a"])).maxConcurrent
    ∧ (update_config (AgentOrchestrator.new (sampleConfig 0 ["a"]))
        (sampleConfig 5 ["a"]) (fun _ => none) 0).config.agents.max_concurrent = 5
    ∧ spawn_agent
        (update_config (AgentOrchestrator.new (sampleConfig 0 ["a"]))
          (sampleConfig 5 ["a"]) (fun _ => none) 0) "a" 0 none 7
      = (.error (.ResourceLimit "Maximum concurrent agents reached"),
         update_config (AgentOrchestrator.new (sampleConfig 0 ["a"]))
           (sampleConfig 5 ["a"]) (fun _ => none) 0) :=
  ⟨(update_config_keeps_spawn_ceiling _ _ _ _).1,
   (update_config_keeps_spawn_ceiling _ _ _ _).2.1,
   (update_config_keeps_spawn_ceiling (AgentOrchestrator.new (sampleConfig 0 ["a"]))
      (sampleConfig 5 ["a"]) (fun _ => none) 0).2.2 "a" 0 none 7 (by decide)⟩

theorem extract_metrics_status (md5hex : String → String)
    (parse : String → String → Except ScrapingError (List ChatMessage))
    (htmlRes : Except ScrapingError String) (streamer h0 : String)
    (m : AgentMetrics) (t l : Nat) :
    (extract_and_process_messages md5hex parse htmlRes streamer h0 m t l).metrics.status
      = m.status := by
  unfold extract_and_process_messages
  cases htmlRes with
  | error e => rfl
  | ok html =>
    dsimp only
    split
    · rfl
    · split
      · rfl
      · split <;> rfl

/-- Claim C10: `set_status` writes the new value to both the status cell and
the status field inside the metrics cell, while the monitoring loop never
writes the metrics status field at all; in particular when the loop finds the
browser instance missing it transitions only the status cell to `Error`,
leaving the metrics status at its last `set_status` value. -/
theorem set_status_vs_loop_error_writes :
    (∀ (st : MonitorState) (s : AgentStatus),
        (set_status st s).status = s ∧ (set_status st s).metrics.status = s)
    ∧ (∀ (md5hex : String → String)
        (parse : String → String → Except ScrapingError (List ChatMessage))
        (streamer : String) (st : MonitorState) (ev : MonitorEvent),
        (monitorStep md5hex parse streamer st ev).metrics.status = st.metrics.status)
    ∧ ∀ (md5hex : String → String)
        (parse : String → String → Except ScrapingError (List ChatMessage))
        (streamer : String) (st : MonitorState)
        (htmlRes : Except ScrapingError String) (now lat : Nat),
        st.exited = false →
        (monitorStep md5hex parse streamer st (.tick false htmlRes now lat)).status
          = .Error "Browser instance not found"
        ∧ (monitorStep md5hex parse streamer st (.tick false htmlRes now lat)).metrics.status
          = st.metrics.status := by
  refine ⟨fun st s => ⟨rfl, rfl⟩, ?_, ?_⟩
  · intro md5hex parse streamer st ev
    unfold monitorStep
    dsimp only
    repeat' split
    all_goals first
      | rfl
      | exact extract_metrics_status _ _ _ _ _ _ _ _
  · intro md5hex parse streamer st htmlRes now lat hex
    simp [monitorStep, hex]

/-- Witness for C10 at the initial monitoring state (both cells `Running`):
a tick that fails to find the browser instance flips the status cell to
`Error` but leaves the metrics status untouched. -/
theorem set_status_vs_loop_error_writes_witness :
    (monitorStep (fun s => s) (fun _ _ => .ok []) "streamer" initialMonitorState
        (.tick false (.ok "<html>") 0 0)).status = .Error "Browser instance not found"
    ∧ (monitorStep (fun s => s) (fun _ _ => .ok []) "streamer" initialMonitorState
        (.tick false (.ok "<html>") 0 0)).metrics.status
        = initialMonitorState.metrics.status :=
  set_status_vs_loop_error_writes.2.2 (fun s => s) (fun _ _ => .ok []) "streamer"
    initialMonitorState (.ok "<html>") 0 0 rfl

/-- Claim C7: after a transient (non-browser) extraction error that does not
reach the consecutive-error ceiling, the loop sleeps
`1000 * 2 ^ min n 5` milliseconds where `n` is the number of consecutive
errors so far; the delay never exceeds 32000 ms, is at least 1000 ms, and the
loop keeps polling (it has not exited). -/
theorem backoff_after_transient_error (md5hex : String → String)
    (parse : String → String → Except ScrapingError (List ChatMessage))
    (streamer html pm : String) (st : MonitorState) (now lat : Nat)
    (hex : st.exited = false)
    (hh : md5hex html ≠ st.lastHtmlHash)
    (hp : parse html streamer = .error (.ParseError pm))
    (hc : st.consecutiveErrors + 1 < 10) :
    (monitorStep md5hex parse streamer st (.tick true (.ok html) now lat)).backoffs
      = st.backoffs ++ [1000 * 2 ^ min (st.consecutiveErrors + 1) 5]
    ∧ 1000 * 2 ^ min (st.consecutiveErrors + 1) 5 ≤ 32000
    ∧ 1000 ≤ 1000 * 2 ^ min (st.consecutiveErrors + 1) 5
    ∧ (monitorStep md5hex parse streamer st (.tick true (.ok html) now lat)).exited = false := by
  have hnotle : ¬(10 ≤ st.consecutiveErrors + 1) := Nat.not_le.mpr hc
  refine ⟨?_, ?_, ?_, ?_⟩
  · simp [monitorStep, hex, extract_and_process_messages, hh, hp, hnotle]
  · have h1 : 2 ^ min (st.consecutiveErrors + 1) 5 ≤ 2 ^ 5 :=
      Nat.pow_le_pow_right (by norm_num) (min_le_right _ _)
    calc 1000 * 2 ^ min (st.consecutiveErrors + 1) 5
        ≤ 1000 * 2 ^ 5 := Nat.mul_le_mul_left 1000 h1
      _ = 32000 := by norm_num
  · have h1 : 1 ≤ 2 ^ min (st.consecutiveErrors + 1) 5 := Nat.one_le_two_pow
    calc 1000 = 1000 * 1 := by norm_num
      _ ≤ 1000 * 2 ^ min (st.consecutiveErrors + 1) 5 := Nat.mul_le_mul_left 1000 h1
  · simp [monitorStep, hex, extract_and_process_messages, hh, hp, hnotle]

/-- Witness for C7: a first parse error at the initial monitoring state
records a backoff of exactly 2000 ms (1000 * 2 ^ min 1 5). -/
theorem backoff_after_transient_error_witness :
    (monitorStep (fun s => s) (fun _ _ => .error (.ParseError "bad")) "streamer"
        initialMonitorState (.tick true (.ok "x") 0 0)).backoffs
      = initialMonitorState.backoffs ++ [1000 * 2 ^ min (initialMonitorState.consecutiveErrors + 1) 5]
    ∧ 1000 * 2 ^ min (initialMonitorState.consecutiveErrors + 1) 5 ≤ 32000
    ∧ 1000 ≤ 1000 * 2 ^ min (initialMonitorState.consecutiveErrors + 1) 5
    ∧ (monitorStep (fun s => s) (fun _ _ => .error (.ParseError "bad")) "streamer"
        initialMonitorState (.tick true (.ok "x") 0 0)).exited = false :=
  backoff_after_transient_error (fun s => s) (fun _ _ => .error (.ParseError "bad"))
    "streamer" "x" "bad" initialMonitorState 0 0 rfl (by decide) rfl (by decide)

theorem monitorStep_exited (md5hex : String → String)
    (parse : String → String → Except ScrapingError (List ChatMessage))
    (streamer : String) (st : MonitorState) (ev : MonitorEvent)
    (h : st.exited = true) :
    monitorStep md5hex parse streamer st ev = st := by
  simp [monitorStep, h]

theorem monitorRun_exited (md5hex : String → String)
    (parse : String → String → Except ScrapingError (List ChatMessage))
    (streamer : String) (st : MonitorState) (h : st.exited = true)
    (evs : List MonitorEvent) :
    monitorRun md5hex parse streamer st evs = st := by
  induction evs with
  | nil => rfl
  | cons e rest ih =>
    show monitorRun md5hex parse streamer (monitorStep md5hex parse streamer st e) rest = st
    rw [monitorStep_exited md5hex parse streamer st e h]
    exact ih

theorem monitorStep_parse_error (md5hex : String → String)
    (parse : String → String → Except ScrapingError (List ChatMessage))
    (streamer html pm : String) (st : MonitorState) (now lat : Nat)
    (hex : st.exited = false)
    (hh : md5hex html ≠ st.lastHtmlHash)
    (hp : parse html streamer = .error (.ParseError pm))
    (hc : ¬ 10 ≤ st.consecutiveErrors + 1) :
    monitorStep md5hex parse streamer st (.tick true (.ok html) now lat)
      = { st with
          consecutiveErrors := st.consecutiveErrors + 1
          lastHtmlHash := md5hex html
          metrics := { st.metrics with error_count := st.metrics.error_count + 1 }
          backoffs := st.backoffs ++ [1000 * 2 ^ min (st.consecutiveErrors + 1) 5] } := by
  simp [monitorStep, hex, extract_and_process_messages, hh, hp, hc]

theorem monitorStep_parse_error_ceiling (md5hex : String → String)
    (parse : String → String → Except ScrapingError (List ChatMessage))
    (streamer html pm : String) (st : MonitorState) (now lat : Nat)
    (hex : st.exited = false)
    (hh : md5hex html ≠ st.lastHtmlHash)
    (hp : parse html streamer = .error (.ParseError pm))
    (hc : 10 ≤ st.consecutiveErrors + 1) :
    monitorStep md5hex parse streamer st (.tick true (.ok html) now lat)
      = { st with
          consecutiveErrors := st.consecutiveErrors + 1
          lastHtmlHash := md5hex html
          metrics := { st.metrics with error_count := st.metrics.error_count + 1 }
          status := .Error ("Too many consecutive errors: "
            ++ ScrapingError.display (.ParseError pm))
          exited := true } := by
  simp [monitorStep, hex, extract_and_process_messages, hh, hp, hc]

/-- Claim C4: a monitoring loop that accumulates 10 consecutive parse
errors with no intervening success (here: ten polls of pages whose digests
each differ from the stored hash while the parser keeps failing with a
`ParseError`) ends with the status cell set to an `Error` whose reason
begins with "Too many consecutive errors", with the loop exited, and no
further event has any effect (no further polls occur). -/
theorem monitor_ten_consecutive_parse_errors_exits (md5hex : String → String)
    (streamer pm : String) :
    ∀ (htmls : List String) (st : MonitorState) (now lat : Nat),
      st.exited = false →
      0 < htmls.length →
      st.consecutiveErrors + htmls.length = 10 →
      List.Chain' (fun a b => b ≠ a) (st.lastHtmlHash :: htmls.map md5hex) →
      (monitorRun md5hex (fun _ _ => .error (.ParseError pm)) streamer st
          (htmls.map (fun h => .tick true (.ok h) now lat))).status
        = .Error ("Too many consecutive errors: " ++ ScrapingError.display (.ParseError pm))
      ∧ (monitorRun md5hex (fun _ _ => .error (.ParseError pm)) streamer st
          (htmls.map (fun h => .tick true (.ok h) now lat))).exited = true
      ∧ ∀ evs2 : List MonitorEvent,
          monitorRun md5hex (fun _ _ => .error (.ParseError pm)) streamer
            (monitorRun md5hex (fun _ _ => .error (.ParseError pm)) streamer st
              (htmls.map (fun h => .tick true (.ok h) now lat))) evs2
          = monitorRun md5hex (fun _ _ => .error (.ParseError pm)) streamer st
              (htmls.map (fun h => .tick true (.ok h) now lat)) := by
  intro htmls
  induction htmls with
  | nil =>
    intro st now lat hex hlen _hsum _hchain
    simp at hlen
  | cons h rest ih =>
    intro st now lat hex _hlen hsum hchain
    have hchain2 := List.chain'_cons.mp hchain
    have hh : md5hex h ≠ st.lastHtmlHash := hchain2.1
    have hp : (fun (_ _ : String) => (.error (.ParseError pm) :
        Except ScrapingError (List ChatMessage))) h streamer = .error (.ParseError pm) := rfl
    cases rest with
    | nil =>
      have hc : 10 ≤ st.consecutiveErrors + 1 := by
        simp at hsum
        omega
      have hstep := monitorStep_parse_error_ceiling md5hex
        (fun _ _ => .error (.ParseError pm)) streamer h pm st now lat hex hh hp hc
      have hfin : monitorRun md5hex (fun _ _ => .error (.ParseError pm)) streamer st
          ([h].map (fun x => .tick true (.ok x) now lat))
          = { st with
              consecutiveErrors := st.consecutiveErrors + 1
              lastHtmlHash := md5hex h
              metrics := { st.metrics with error_count := st.metrics.error_count + 1 }
              status := .Error ("Too many consecutive errors: "
                ++ ScrapingError.display (.ParseError pm))
              exited := true } := by
        show monitorStep md5hex (fun _ _ => .error (.ParseError pm)) streamer st
            (.tick true (.ok h) now lat) = _
        exact hstep
      rw [hfin]
      exact ⟨rfl, rfl, fun evs2 => monitorRun_exited _ _ _ _ rfl evs2⟩
    | cons r rs =>
      have hc : ¬ 10 ≤ st.consecutiveErrors + 1 := by
        simp at hsum
        omega
      have hstep := monitorStep_parse_error md5hex
        (fun _ _ => .error (.ParseError pm)) streamer h pm st now lat hex hh hp hc
      have hfin : monitorRun md5hex (fun _ _ => .error (.ParseError pm)) streamer st
          ((h :: r :: rs).map (fun x => .tick true (.ok x) now lat))
          = monitorRun md5hex (fun _ _ => .error (.ParseError pm)) streamer
              { st with
                consecutiveErrors := st.consecutiveErrors + 1
                lastHtmlHash := md5hex h
                metrics := { st.metrics with error_count := st.metrics.error_count + 1 }
                backoffs := st.backoffs ++ [1000 * 2 ^ min (st.consecutiveErrors + 1) 5] }
              ((r :: rs).map (fun x => .tick true (.ok x) now lat)) := by
        show monitorRun md5hex (fun _ _ => .error (.ParseError pm)) streamer
            (monitorStep md5hex (fun _ _ => .error (.ParseError pm)) streamer st
              (.tick true (.ok h) now lat))
            ((r :: rs).map (fun x => .tick true (.ok x) now lat)) = _
        rw [hstep]
      rw [hfin]
      refine ih _ now lat hex (by simp) ?_ ?_
      · show st.consecutiveErrors + 1 + (r :: rs).length = 10
        simp only [List.length_cons] at hsum ⊢
        omega
      · exact hchain2.2

/-- Witness for C4: ten pages with pairwise-different digests and an
always-failing parser drive the initial monitoring state into the
`Too many consecutive errors` terminal state. -/
theorem monitor_ten_consecutive_parse_errors_exits_witness :
    (monitorRun (fun s => s) (fun _ _ => .error (.ParseError "bad")) "streamer"
        initialMonitorState
        (["a0", "a1", "a2", "a3", "a4", "a5", "a6", "a7", "a8", "a9"].map
          (fun h => .tick true (.ok h) 0 0))).status
      = .Error ("Too many consecutive errors: " ++ ScrapingError.display (.ParseError "bad"))
    ∧ (monitorRun (fun s => s) (fun _ _ => .error (.ParseError "bad")) "streamer"
        initialMonitorState
        (["a0", "a1", "a2", "a3", "a4", "a5", "a6", "a7", "a8", "a9"].map
          (fun h => .tick true (.ok h) 0 0))).exited = true
    ∧ ∀ evs2 : List MonitorEvent,
        monitorRun (fun s => s) (fun _ _ => .error (.ParseError "bad")) "streamer"
          (monitorRun (fun s => s) (fun _ _ => .error (.ParseError "bad")) "streamer"
            initialMonitorState
            (["a0", "a1", "a2", "a3", "a4", "a5", "a6", "a7", "a8", "a9"].map
              (fun h => .tick true (.ok h) 0 0))) evs2
        = monitorRun (fun s => s) (fun _ _ => .error (.ParseError "bad")) "streamer"
            initialMonitorState
            (["a0", "a1", "a2", "a3", "a4", "a5", "a6", "a7", "a8", "a9"].map
              (fun h => .tick true (.ok h) 0 0)) :=
  monitor_ten_consecutive_parse_errors_exits (fun s => s) "streamer" "bad"
    ["a0", "a1", "a2", "a3", "a4", "a5", "a6", "a7", "a8", "a9"]
    initialMonitorState 0 0 rfl (by decide) (by decide)
    (by simp only [initialMonitorState, initialMetrics, List.map, List.chain'_cons,
          List.chain'_singleton, and_true]
        decide)

theorem spawn_agent_ok (st : OState) (s : String) (p : Nat) (now : Nat)
    (newId : AgentId) (st' : OState)
    (h : spawn_agent st s p none now = (.ok newId, st')) :
    newId = st.nextId
    ∧ st' = { st with
        agents := ainsert st.agents st.nextId
          { id := st.nextId, streamer := s, status := .Running }
        assignments := ainsert st.assignments st.nextId
          { agent_id := st.nextId, streamer := s, assigned_at := now, priority := p,
            retry_attempts := 0, last_failure := none }
        totalSpawned := st.totalSpawned + 1
        nextId := st.nextId + 1 } := by
  unfold spawn_agent at h
  split at h
  · simp [Prod.ext_iff] at h
  · simp only [Prod.mk.injEq] at h
    obtain ⟨h1, h2⟩ := h
    cases h1
    exact ⟨rfl, h2.symm⟩

theorem stop_agent_agents_lookup (st : OState) (agent_id : AgentId) :
    alookup (stop_agent st agent_id).1.agents agent_id = none := by
  unfold stop_agent
  cases h : alookup st.agents agent_id with
  | none => exact h
  | some _ => simp [alookup_aerase_self]

theorem stop_agent_assignments_lookup_none (st : OState) (agent_id : AgentId)
    (h : alookup st.assignments agent_id = none) :
    alookup (stop_agent st agent_id).1.assignments agent_id = none := by
  unfold stop_agent
  cases alookup st.agents agent_id with
  | none => exact h
  | some _ => simp [alookup_aerase_self]

/-- Claim C5: restarting an agent whose id is in the assignments map (when
the replacement spawn succeeds) yields an assignment with the same streamer
and priority, a retry counter incremented by exactly one, a recorded failure
time, and a fresh agent id different from the old one; the old id is gone
from both the agents and assignments maps. -/
theorem restart_agent_preserves_assignment (st : OState) (agent_id : AgentId) (now : Nat)
    (a : AgentAssignment)
    (hwf : freshIdsOk st)
    (hlook : alookup st.assignments agent_id = some a)
    (hok : (restart_agent st agent_id none now).1 = .ok ()) :
    ∃ (newId : AgentId) (a' : AgentAssignment),
      alookup (restart_agent st agent_id none now).2.assignments newId = some a'
      ∧ a'.streamer = a.streamer
      ∧ a'.priority = a.priority
      ∧ a'.retry_attempts = a.retry_attempts + 1
      ∧ a'.last_failure = some now
      ∧ a'.agent_id = newId
      ∧ newId ≠ agent_id
      ∧ alookup (restart_agent st agent_id none now).2.agents agent_id = none
      ∧ alookup (restart_agent st agent_id none now).2.assignments agent_id = none := by
  have hmem := alookup_mem hlook
  have hlt : agent_id < st.nextId := hwf.2 (agent_id, a) hmem
  rcases hsp : spawn_agent
      ((stop_agent { st with assignments := aerase st.assignments agent_id } agent_id).1)
      a.streamer a.priority none now with ⟨res, st3⟩
  have hnext2 : ((stop_agent { st with assignments := aerase st.assignments agent_id }
      agent_id).1).nextId = st.nextId :=
    (stop_agent_frame _ _).2.2.2.1
  cases res with
  | error e =>
    have hre : restart_agent st agent_id none now = (.error e, st3) := by
      unfold restart_agent
      rw [hlook]
      dsimp only
      rw [hsp]
    rw [hre] at hok
    simp at hok
  | ok newId =>
    have hre : restart_agent st agent_id none now
        = (.ok (), { st3 with assignments := (ainsert st3.assignments newId
            { a with
              retry_attempts := a.retry_attempts + 1
              last_failure := some now
              agent_id := newId }) }) := by
      unfold restart_agent
      rw [hlook]
      dsimp only
      rw [hsp]
    have hspok := spawn_agent_ok _ _ _ _ _ _ hsp
    have hnewId : newId = st.nextId := hspok.1.trans hnext2
    have hne : agent_id ≠ newId := by
      rw [hnewId]
      exact Nat.ne_of_lt hlt
    have hne2 : agent_id
        ≠ ((stop_agent { st with assignments := aerase st.assignments agent_id }
            agent_id).1).nextId := by
      rw [hnext2]
      exact Nat.ne_of_lt hlt
    refine ⟨newId, { a with retry_attempts := a.retry_attempts + 1, last_failure := some now, agent_id := newId }, ?_, rfl, rfl, rfl, rfl, rfl, fun he => hne he.symm, ?_, ?_⟩
    · rw [hre]
      exact alookup_ainsert_self _ _ _
    · rw [hre]
      show alookup st3.agents agent_id = none
      rw [hspok.2]
      show alookup (ainsert _ _ _) agent_id = none
      rw [alookup_ainsert_ne _ _ _ _ hne2]
      exact stop_agent_agents_lookup _ _
    · rw [hre]
      show alookup (ainsert st3.assignments newId _) agent_id = none
      rw [alookup_ainsert_ne _ _ _ _ hne]
      rw [hspok.2]
      show alookup (ainsert _ _ _) agent_id = none
      rw [alookup_ainsert_ne _ _ _ _ hne2]
      exact stop_agent_assignments_lookup_none _ _ (alookup_aerase_self _ _)

/-- Witness for C5: restarting the single agent (id 0) of a concrete
orchestrator yields a fresh assignment for the same streamer and priority
with the retry counter at 2 and agent id 0 gone from both maps. -/
theorem restart_agent_preserves_assignment_witness :
    ∃ (newId : AgentId) (a' : AgentAssignment),
      alookup (restart_agent sampleRestartState 0 none 5).2.assignments newId = some a'
      ∧ a'.streamer = sampleRestartAssignment.streamer
      ∧ a'.priority = sampleRestartAssignment.priority
      ∧ a'.retry_attempts = sampleRestartAssignment.retry_attempts + 1
      ∧ a'.last_failure = some 5
      ∧ a'.agent_id = newId
      ∧ newId ≠ 0
      ∧ alookup (restart_agent sampleRestartState 0 none 5).2.agents 0 = none
      ∧ alookup (restart_agent sampleRestartState 0 none 5).2.assignments 0 = none :=
  restart_agent_preserves_assignment sampleRestartState 0 5 sampleRestartAssignment
    (by decide) (by decide) (by decide)

theorem getD_mem_of_lt {l : List String} {i : Nat} (h : i < l.length) :
    l.getD i "" ∈ l := by
  induction l generalizing i with
  | nil => simp at h
  | cons x xs ih =>
    cases i with
    | zero => exact List.mem_cons_self x xs
    | succ j =>
      have hj : j < xs.length := Nat.lt_of_succ_lt_succ h
      exact List.mem_cons_of_mem x (ih hj)

theorem get_next_proxy_loop_some (pl : List String) (now : Nat) :
    ∀ (fuel idx : Nat) (bad : List (String × Nat)) (p : String) (idx2 : Nat)
      (bad2 : List (String × Nat)),
      get_next_proxy_loop pl now fuel idx bad = (some p, idx2, bad2) →
      (alookup bad p = none ∧ bad2 = bad)
      ∨ ∃ t, alookup bad p = some t ∧ 300 ≤ now - t ∧ bad2 = aerase bad p := by
  intro fuel
  induction fuel with
  | zero =>
    intro idx bad p idx2 bad2 h
    simp [get_next_proxy_loop] at h
  | succ n ih =>
    intro idx bad p idx2 bad2 h
    simp only [get_next_proxy_loop] at h
    cases hl : alookup bad (pl.getD idx "") with
    | none =>
      rw [hl] at h
      simp only [Prod.mk.injEq, Option.some.injEq] at h
      obtain ⟨h1, _h2, h3⟩ := h
      exact Or.inl ⟨h1 ▸ hl, h3.symm⟩
    | some t =>
      rw [hl] at h
      dsimp only at h
      by_cases hcool : now - t < 300
      · rw [if_pos hcool] at h
        exact ih _ bad p idx2 bad2 h
      · rw [if_neg hcool] at h
        simp only [Prod.mk.injEq, Option.some.injEq] at h
        obtain ⟨h1, _h2, h3⟩ := h
        exact Or.inr ⟨t, h1 ▸ hl, Nat.not_lt.mp hcool, by rw [h3.symm, h1]⟩

theorem get_next_proxy_loop_all_cooldown (pl : List String) (now : Nat)
    (bad : List (String × Nat))
    (hall : ∀ q ∈ pl, ∃ t, alookup bad q = some t ∧ now - t < 300) :
    ∀ (fuel idx : Nat), idx < pl.length →
      (get_next_proxy_loop pl now fuel idx bad).1 = none
      ∧ (get_next_proxy_loop pl now fuel idx bad).2.2 = bad := by
  intro fuel
  induction fuel with
  | zero =>
    intro idx _hidx
    exact ⟨rfl, rfl⟩
  | succ n ih =>
    intro idx hidx
    obtain ⟨t, hl, hcool⟩ := hall (pl.getD idx "") (getD_mem_of_lt hidx)
    have hpos : 0 < pl.length := Nat.lt_of_le_of_lt (Nat.zero_le idx) hidx
    have hidx' : (idx + 1) % pl.length < pl.length := Nat.mod_lt _ hpos
    simp only [get_next_proxy_loop]
    rw [hl]
    dsimp only
    rw [if_pos hcool]
    exact ih _ hidx'

/-- Claim C8: a proxy reported bad less than 300 seconds ago is never the
one handed out; a returned proxy either was never reported or its cooldown
has elapsed, in which case it is removed from the bad list; and when every
proxy in the list is still in cooldown the call returns `none` after at most
one cycle with the bad list unchanged. -/
theorem get_next_proxy_cooldown (ps : ProxyState) (now : Nat)
    (hidx : ps.proxy_index < ps.proxy_list.length ∨ ps.proxy_list = []) :
    (∀ (p : String) (ps' : ProxyState),
        get_next_proxy ps now = (some p, ps') →
        (alookup ps.bad_proxies p = none
          ∨ ∃ t, alookup ps.bad_proxies p = some t ∧ 300 ≤ now - t)
        ∧ alookup ps'.bad_proxies p = none)
    ∧ ((∀ q ∈ ps.proxy_list, ∃ t, alookup ps.bad_proxies q = some t ∧ now - t < 300) →
        (get_next_proxy ps now).1 = none
        ∧ (get_next_proxy ps now).2.bad_proxies = ps.bad_proxies) := by
  by_cases hemp : ps.proxy_list.isEmpty
  · constructor
    · intro p ps' h
      rw [get_next_proxy, if_pos hemp] at h
      simp at h
    · intro _hall
      rw [get_next_proxy, if_pos hemp]
      exact ⟨rfl, rfl⟩
  · rcases hr : get_next_proxy_loop ps.proxy_list now ps.proxy_list.length
        ps.proxy_index ps.bad_proxies with ⟨o, idx2, bad2⟩
    have hget : get_next_proxy ps now
        = (o, { ps with proxy_index := idx2, bad_proxies := bad2 }) := by
      rw [get_next_proxy, if_neg hemp]
      dsimp only
      rw [hr]
    constructor
    · intro p ps' h
      rw [hget] at h
      simp only [Prod.mk.injEq] at h
      obtain ⟨ho, hps'⟩ := h
      subst ho
      have hspec := get_next_proxy_loop_some ps.proxy_list now ps.proxy_list.length
        ps.proxy_index ps.bad_proxies p idx2 bad2 hr
      rcases hspec with ⟨hnone, hbad⟩ | ⟨t, hsome, hel, hbad⟩
      · refine ⟨Or.inl hnone, ?_⟩
        rw [← hps']
        show alookup bad2 p = none
        rw [hbad]
        exact hnone
      · refine ⟨Or.inr ⟨t, hsome, hel⟩, ?_⟩
        rw [← hps']
        show alookup bad2 p = none
        rw [hbad]
        exact alookup_aerase_self _ _
    · intro hall
      have hlt : ps.proxy_index < ps.proxy_list.length := by
        rcases hidx with h | h
        · exact h
        · rw [h] at hemp
          simp at hemp
      have hspec := get_next_proxy_loop_all_cooldown ps.proxy_list now ps.bad_proxies
        hall ps.proxy_list.length ps.proxy_index hlt
      rw [hr] at hspec
      rw [hget]
      exact ⟨hspec.1, hspec.2⟩

/-- Witness for C8: two proxies both reported at time 0 are still in
cooldown at time 100, so the call returns no proxy and leaves the bad list
alone. -/
theorem get_next_proxy_cooldown_witness :
    (∀ (p : String) (ps' : ProxyState),
        get_next_proxy ⟨["p1", "p2"], 0, [("p1", 0), ("p2", 0)]⟩ 100 = (some p, ps') →
        (alookup ([("p1", 0), ("p2", 0)] : List (String × Nat)) p = none
          ∨ ∃ t, alookup ([("p1", 0), ("p2", 0)] : List (String × Nat)) p = some t
              ∧ 300 ≤ 100 - t)
        ∧ alookup ps'.bad_proxies p = none)
    ∧ ((∀ q ∈ ["p1", "p2"],
          ∃ t, alookup ([("p1", 0), ("p2", 0)] : List (String × Nat)) q = some t
            ∧ 100 - t < 300) →
        (get_next_proxy ⟨["p1", "p2"], 0, [("p1", 0), ("p2", 0)]⟩ 100).1 = none
        ∧ (get_next_proxy ⟨["p1", "p2"], 0, [("p1", 0), ("p2", 0)]⟩ 100).2.bad_proxies
            = [("p1", 0), ("p2", 0)]) :=
  get_next_proxy_cooldown ⟨["p1", "p2"], 0, [("p1", 0), ("p2", 0)]⟩ 100 (by decide)

theorem uniq_aerase {l : List (AgentId × AgentAssignment)} {k : AgentId}
    (h : List.Pairwise (fun p q => p.2.streamer ≠ q.2.streamer) l) :
    List.Pairwise (fun p q => p.2.streamer ≠ q.2.streamer) (aerase l k) :=
  List.Pairwise.sublist (List.filter_sublist l) h

theorem uniq_ainsert {l : List (AgentId × AgentAssignment)} {k : AgentId}
    {v : AgentAssignment}
    (h : List.Pairwise (fun p q => p.2.streamer ≠ q.2.streamer) l)
    (hv : ∀ q ∈ l, q.1 ≠ k → q.2.streamer ≠ v.streamer) :
    List.Pairwise (fun p q => p.2.streamer ≠ q.2.streamer) (ainsert l k v) := by
  refine List.Pairwise.cons ?_ (uniq_aerase h)
  intro q hq
  have hm := mem_aerase.mp hq
  exact (hv q hm.1 hm.2).symm

theorem spawn_agent_uniq (st : OState) (s : String) (p : Nat)
    (se : Option ScrapingError) (now : Nat)
    (hg : streamerAssigned st s = false)
    (h : uniqueStreamers st) :
    uniqueStreamers (spawn_agent st s p se now).2 := by
  unfold spawn_agent
  split
  · exact h
  · cases se with
    | some e => exact h
    | none =>
      show List.Pairwise _ (ainsert st.assignments st.nextId _)
      refine uniq_ainsert h ?_
      intro q hq _
      exact streamerAssigned_false_iff.mp hg q hq

theorem stop_agent_uniq (st : OState) (agent_id : AgentId)
    (h : uniqueStreamers st) :
    uniqueStreamers (stop_agent st agent_id).1 := by
  unfold stop_agent
  cases alookup st.agents agent_id with
  | none => exact h
  | some _ => exact uniq_aerase h

theorem stop_agent_assignments_subset (st : OState) (agent_id : AgentId) :
    ∀ q ∈ (stop_agent st agent_id).1.assignments, q ∈ st.assignments := by
  unfold stop_agent
  cases alookup st.agents agent_id with
  | none => exact fun q hq => hq
  | some _ => exact fun q hq => (mem_aerase.mp hq).1

theorem spawn_agent_error_state (st : OState) (s : String) (p : Nat)
    (se : Option ScrapingError) (now : Nat) (e : ScrapingError) (st' : OState)
    (h : spawn_agent st s p se now = (.error e, st')) : st' = st := by
  unfold spawn_agent at h
  split at h
  · simp only [Prod.mk.injEq] at h
    exact h.2.symm
  · cases se with
    | some e2 =>
      simp only [Prod.mk.injEq] at h
      exact h.2.symm
    | none => simp [Prod.ext_iff] at h

theorem restart_agent_uniq (st : OState) (agent_id : AgentId)
    (se : Option ScrapingError) (now : Nat)
    (h : uniqueStreamers st) :
    uniqueStreamers (restart_agent st agent_id se now).2 := by
  cases hl : alookup st.assignments agent_id with
  | none =>
    have hre : restart_agent st agent_id se now
        = (.error (.AgentError "Agent not found for restart"), st) := by
      unfold restart_agent
      rw [hl]
    rw [hre]
    exact h
  | some a =>
    have hmem : (agent_id, a) ∈ st.assignments := alookup_mem hl
    have h1 : uniqueStreamers { st with assignments := aerase st.assignments agent_id } :=
      uniq_aerase h
    have h2 : uniqueStreamers
        (stop_agent { st with assignments := aerase st.assignments agent_id } agent_id).1 :=
      stop_agent_uniq _ _ h1
    have hguard : ∀ q ∈ (stop_agent { st with assignments := aerase st.assignments agent_id }
        agent_id).1.assignments, q.2.streamer ≠ a.streamer := by
      intro q hq
      have hq1 := stop_agent_assignments_subset _ _ q hq
      have hq2 := mem_aerase.mp hq1
      have hne : q ≠ (agent_id, a) := by
        intro he
        exact hq2.2 (by rw [he])
      exact List.Pairwise.forall (fun x y hxy => hxy.symm) h hq2.1 hmem hne
    rcases hsp : spawn_agent
        ((stop_agent { st with assignments := aerase st.assignments agent_id } agent_id).1)
        a.streamer a.priority se now with ⟨res, st3⟩
    cases res with
    | error e =>
      have hre : restart_agent st agent_id se now = (.error e, st3) := by
        unfold restart_agent
        rw [hl]
        dsimp only
        rw [hsp]
      rw [hre]
      rw [spawn_agent_error_state _ _ _ _ _ _ _ hsp]
      exact h2
    | ok newId =>
      have hre : restart_agent st agent_id se now
          = (.ok (), { st3 with assignments := (ainsert st3.assignments newId
              { a with
                retry_attempts := a.retry_attempts + 1
                last_failure := some now
                agent_id := newId }) }) := by
        unfold restart_agent
        rw [hl]
        dsimp only
        rw [hsp]
      have hsokFull : spawn_agent
          ((stop_agent { st with assignments := aerase st.assignments agent_id } agent_id).1)
          a.streamer a.priority none now = (.ok newId, st3) := by
        cases se with
        | none => exact hsp
        | some e2 =>
          exfalso
          unfold spawn_agent at hsp
          split at hsp
          · simp [Prod.ext_iff] at hsp
          · simp [Prod.ext_iff] at hsp
      have hspok := spawn_agent_ok _ _ _ _ _ _ hsokFull
      rw [hre]
      show List.Pairwise _ (ainsert st3.assignments newId _)
      have h3 : uniqueStreamers st3 := by
        rw [hspok.2]
        show List.Pairwise _ (ainsert _ _ _)
        refine uniq_ainsert h2 ?_
        intro q hq _
        exact hguard q hq
      refine uniq_ainsert h3 ?_
      intro q hq hqk
      rw [hspok.2] at hq
      have hq2 : q ∈ ainsert
          ((stop_agent { st with assignments := aerase st.assignments agent_id } agent_id).1).assignments
          ((stop_agent { st with assignments := aerase st.assignments agent_id } agent_id).1).nextId
          { agent_id := ((stop_agent { st with assignments := aerase st.assignments agent_id }
              agent_id).1).nextId
            streamer := a.streamer, assigned_at := now, priority := a.priority
            retry_attempts := 0, last_failure := none } := hq
      rw [ainsert] at hq2
      rcases List.mem_cons.mp hq2 with hqh | hqt
      · exfalso
        apply hqk
        rw [hqh, hspok.1]
      · exact hguard q (mem_aerase.mp hqt).1

theorem distStopLoop_uniq (streamers : List String)
    (snap : List (AgentId × AgentAssignment)) :
    ∀ (st : OState) (n : Nat), uniqueStreamers st →
      uniqueStreamers (distStopLoop streamers snap st n).1 := by
  induction snap with
  | nil => intro st n h; exact h
  | cons p rest ih =>
    intro st n h
    simp only [distStopLoop]
    split
    · exact ih st n h
    · exact ih _ _ (stop_agent_uniq _ _ h)

theorem distSpawnLoop_uniq (maxc : Nat) (se : Nat → Option ScrapingError) (now : Nat)
    (l : List (Nat × String)) :
    ∀ (st : OState) (c : Nat), uniqueStreamers st →
      uniqueStreamers (distSpawnLoop maxc se now l st c).1 := by
  induction l with
  | nil => intro st c h; exact h
  | cons p rest ih =>
    obtain ⟨idx, s⟩ := p
    intro st c h
    simp only [distSpawnLoop]
    split
    · exact h
    · split
      · exact ih st (c + 1) h
      next hnot =>
        have hg : streamerAssigned st s = false := Bool.eq_false_iff.mpr hnot
        rcases hsp : spawn_agent st s idx (se idx) now with ⟨res, st'⟩
        cases res with
        | ok a =>
          dsimp only
          have hu : uniqueStreamers st' := by
            have hu2 := spawn_agent_uniq st s idx (se idx) now hg h
            rw [hsp] at hu2
            exact hu2
          exact ih st' (c + 1) hu
        | error e =>
          dsimp only
          refine ih _ c ?_
          show uniqueStreamers { st' with errorCount := st'.errorCount + 1 }
          have hst : st' = st := spawn_agent_error_state _ _ _ _ _ _ _ hsp
          rw [hst]
          exact h

theorem distribute_agents_uniq (st : OState) (se : Nat → Option ScrapingError)
    (now : Nat) (h : uniqueStreamers st) :
    uniqueStreamers (distribute_agents st se now).st := by
  unfold distribute_agents
  dsimp only
  exact distSpawnLoop_uniq _ _ _ _ _ _ (distStopLoop_uniq _ _ _ _ h)

theorem scale_agents_uniq (st : OState) (cpu memPct : ℚ)
    (se : Option ScrapingError) (now : Nat) (h : uniqueStreamers st) :
    uniqueStreamers (scale_agents st cpu memPct se now) := by
  unfold scale_agents
  dsimp only
  split
  · split
    · exact stop_agent_uniq _ _ h
    · exact h
  · split
    · split
      next idx s heq =>
        have hp := List.find?_some heq
        rw [Bool.and_eq_true] at hp
        have h1 := hp.1
        have hnotmem : s ∉ st.assignments.map (fun p => p.2.streamer) := by
          intro hm
          have hcont : (st.assignments.map (fun p => p.2.streamer)).contains s = true :=
            List.elem_eq_true_of_mem hm
          rw [hcont] at h1
          simp at h1
        have hg : streamerAssigned st s = false :=
          streamerAssigned_false_iff.mpr
            (fun q hq hqs => hnotmem (List.mem_map.mpr ⟨q, hq, hqs⟩))
        exact spawn_agent_uniq _ _ _ _ _ hg h
      next heq => exact h
    · exact h

/-- Counterexample to C2 as stated: `spawn_agent` itself performs no
per-streamer check, so two direct `spawn_agent` calls for the same streamer
both succeed and leave two assignments for streamer "a". -/
theorem spawn_agent_duplicate_streamer_counterexample :
    ¬ uniqueStreamers
      (spawn_agent (spawn_agent (AgentOrchestrator.new (sampleConfig 2 ["a", "b"]))
          "a" 0 none 0).2 "a" 0 none 0).2 := by
  decide

/-- Claim C2 (amended): after every sequence of orchestrator operations
(stop_agent, restart_agent, distribute_agents, scale_agents, and spawn_agent
calls restricted to streamers without a current assignment - the only way
distribute_agents and scale_agents ever invoke it) the assignments map holds
at most one assignment per streamer name. -/
theorem orchestrator_ops_unique_streamers (st st' : OState)
    (h : uniqueStreamers st) (hsteps : Relation.ReflTransGen OStep st st') :
    uniqueStreamers st' := by
  induction hsteps with
  | refl => exact h
  | tail _ hstep ih =>
    cases hstep with
    | spawn s p se now hg => exact spawn_agent_uniq _ _ _ _ _ hg ih
    | stop agent_id => exact stop_agent_uniq _ _ ih
    | restart agent_id se now => exact restart_agent_uniq _ _ _ _ ih
    | distribute se now => exact distribute_agents_uniq _ _ _ ih
    | scale cpu memPct se now => exact scale_agents_uniq _ _ _ _ _ ih

/-- Witness for the amended C2 at the empty reachable state. -/
theorem orchestrator_ops_unique_streamers_witness :
    uniqueStreamers (AgentOrchestrator.new (sampleConfig 2 ["a", "b"])) :=
  orchestrator_ops_unique_streamers _ _ (by decide) Relation.ReflTransGen.refl

theorem mem_ainsert {κ α : Type} [DecidableEq κ] {q : κ × α} {l : List (κ × α)}
    {k : κ} {v : α} (h : q ∈ ainsert l k v) : q = (k, v) ∨ q ∈ l := by
  rcases List.mem_cons.mp h with h | h
  · exact Or.inl h
  · exact Or.inr (mem_aerase.mp h).1

theorem spawn_agent_ok_elim (st : OState) (s : String) (p : Nat)
    (se : Option ScrapingError) (now : Nat) (newId : AgentId) (st' : OState)
    (h : spawn_agent st s p se now = (.ok newId, st')) :
    newId = st.nextId
    ∧ st' = { st with
        agents := ainsert st.agents st.nextId
          { id := st.nextId, streamer := s, status := .Running }
        assignments := ainsert st.assignments st.nextId
          { agent_id := st.nextId, streamer := s, assigned_at := now, priority := p,
            retry_attempts := 0, last_failure := none }
        totalSpawned := st.totalSpawned + 1
        nextId := st.nextId + 1 } := by
  cases se with
  | none => exact spawn_agent_ok _ _ _ _ _ _ h
  | some e =>
    exfalso
    unfold spawn_agent at h
    split at h
    · simp [Prod.ext_iff] at h
    · simp [Prod.ext_iff] at h

theorem spawn_agent_wf (st : OState) (s : String) (p : Nat)
    (se : Option ScrapingError) (now : Nat) (h : freshIdsOk st) :
    freshIdsOk (spawn_agent st s p se now).2 := by
  rcases hsp : spawn_agent st s p se now with ⟨res, st'⟩
  cases res with
  | error e =>
    rw [spawn_agent_error_state _ _ _ _ _ _ _ hsp]
    exact h
  | ok newId =>
    obtain ⟨_, hst'⟩ := spawn_agent_ok_elim _ _ _ _ _ _ _ hsp
    show freshIdsOk st'
    rw [hst']
    constructor
    · intro q hq
      show q.1 < st.nextId + 1
      rcases mem_ainsert hq with rfl | hq2
      · exact Nat.lt_succ_self _
      · exact Nat.lt_succ_of_lt (h.1 q hq2)
    · intro q hq
      show q.1 < st.nextId + 1
      rcases mem_ainsert hq with rfl | hq2
      · exact Nat.lt_succ_self _
      · exact Nat.lt_succ_of_lt (h.2 q hq2)

theorem stop_agent_wf (st : OState) (agent_id : AgentId) (h : freshIdsOk st) :
    freshIdsOk (stop_agent st agent_id).1 := by
  unfold stop_agent
  cases alookup st.agents agent_id with
  | none => exact h
  | some _ =>
    constructor
    · intro q hq
      exact h.1 q (mem_aerase.mp hq).1
    · intro q hq
      exact h.2 q (mem_aerase.mp hq).1

theorem distStopLoop_wf (streamers : List String)
    (snap : List (AgentId × AgentAssignment)) :
    ∀ (st : OState) (n : Nat), freshIdsOk st →
      freshIdsOk (distStopLoop streamers snap st n).1 := by
  induction snap with
  | nil => intro st n h; exact h
  | cons p rest ih =>
    intro st n h
    simp only [distStopLoop]
    split
    · exact ih st n h
    · exact ih _ _ (stop_agent_wf _ _ h)

theorem distSpawnLoop_wf (maxc : Nat) (se : Nat → Option ScrapingError) (now : Nat) :
    ∀ (l : List (Nat × String)) (st : OState) (c : Nat), freshIdsOk st →
      freshIdsOk (distSpawnLoop maxc se now l st c).1 := by
  intro l
  induction l with
  | nil => intro st c h; exact h
  | cons p rest ih =>
    obtain ⟨idx, s⟩ := p
    intro st c h
    simp only [distSpawnLoop]
    split
    · exact h
    · split
      · exact ih st (c + 1) h
      · rcases hsp : spawn_agent st s idx (se idx) now with ⟨res, st'⟩
        cases res with
        | ok a =>
          dsimp only
          have hu : freshIdsOk st' := by
            have h2 := spawn_agent_wf st s idx (se idx) now h
            rw [hsp] at h2
            exact h2
          exact ih st' (c + 1) hu
        | error e =>
          dsimp only
          refine ih _ c ?_
          show freshIdsOk { st' with errorCount := st'.errorCount + 1 }
          have hst : st' = st := spawn_agent_error_state _ _ _ _ _ _ _ hsp
          rw [hst]
          exact h

theorem distSpawnLoop_assigned_mono (maxc : Nat) (se : Nat → Option ScrapingError)
    (now : Nat) :
    ∀ (l : List (Nat × String)) (st : OState) (c : Nat) (x : String),
      freshIdsOk st →
      streamerAssigned st x = true →
      streamerAssigned (distSpawnLoop maxc se now l st c).1 x = true := by
  intro l
  induction l with
  | nil => intro st c x _ h; exact h
  | cons p rest ih =>
    obtain ⟨idx, s⟩ := p
    intro st c x hwf h
    simp only [distSpawnLoop]
    split
    · exact h
    · split
      · exact ih st (c + 1) x hwf h
      · rcases hsp : spawn_agent st s idx (se idx) now with ⟨res, st'⟩
        cases res with
        | ok a =>
          dsimp only
          have hwf' : freshIdsOk st' := by
            have h2 := spawn_agent_wf st s idx (se idx) now hwf
            rw [hsp] at h2
            exact h2
          refine ih st' (c + 1) x hwf' ?_
          obtain ⟨_, hst'⟩ := spawn_agent_ok_elim _ _ _ _ _ _ _ hsp
          obtain ⟨q, hq, hqs⟩ := streamerAssigned_iff.mp h
          have hqn : q.1 ≠ st.nextId := Nat.ne_of_lt (hwf.2 q hq)
          refine streamerAssigned_iff.mpr ⟨q, ?_, hqs⟩
          rw [hst']
          show q ∈ ainsert st.assignments st.nextId _
          exact List.mem_cons_of_mem _ (mem_aerase.mpr ⟨hq, hqn⟩)
        | error e =>
          dsimp only
          refine ih _ c x ?_ ?_
          · show freshIdsOk { st' with errorCount := st'.errorCount + 1 }
            have hst : st' = st := spawn_agent_error_state _ _ _ _ _ _ _ hsp
            rw [hst]
            exact hwf
          · show streamerAssigned { st' with errorCount := st'.errorCount + 1 } x = true
            have hst : st' = st := spawn_agent_error_state _ _ _ _ _ _ _ hsp
            rw [hst]
            exact h

theorem distSpawnLoop_errorCount_mono (maxc : Nat) (se : Nat → Option ScrapingError)
    (now : Nat) :
    ∀ (l : List (Nat × String)) (st : OState) (c : Nat),
      st.errorCount ≤ (distSpawnLoop maxc se now l st c).1.errorCount := by
  intro l
  induction l with
  | nil => intro st c; exact Nat.le_refl _
  | cons p rest ih =>
    obtain ⟨idx, s⟩ := p
    intro st c
    simp only [distSpawnLoop]
    split
    · exact Nat.le_refl _
    · split
      · exact ih st (c + 1)
      · rcases hsp : spawn_agent st s idx (se idx) now with ⟨res, st'⟩
        cases res with
        | ok a =>
          dsimp only
          have hfr := spawn_agent_frame st s idx (se idx) now
          rw [hsp] at hfr
          calc st.errorCount = st'.errorCount := hfr.2.2.symm
            _ ≤ _ := ih st' (c + 1)
        | error e =>
          dsimp only
          have hst : st' = st := spawn_agent_error_state _ _ _ _ _ _ _ hsp
          have h2 := ih { st' with errorCount := st'.errorCount + 1 } c
          have h3 : st.errorCount ≤ st'.errorCount + 1 := by
            rw [hst]
            exact Nat.le_succ _
          exact Nat.le_trans h3 h2

theorem alookup_aerase_none {κ α : Type} [DecidableEq κ] {l : List (κ × α)} {k k' : κ}
    (h : alookup l k = none) : alookup (aerase l k') k = none := by
  rw [alookup_eq_none_iff] at h ⊢
  intro q hq
  exact h q (mem_aerase.mp hq).1

theorem stop_agent_case (st : OState) (agent_id : AgentId) :
    ((stop_agent st agent_id).1 = st ∧ alookup st.agents agent_id = none)
    ∨ (stop_agent st agent_id).1
        = { st with
            agents := aerase st.agents agent_id
            assignments := aerase st.assignments agent_id } := by
  unfold stop_agent
  cases h : alookup st.agents agent_id with
  | none => exact Or.inl ⟨rfl, rfl⟩
  | some v => exact Or.inr rfl

theorem stop_agent_agents_none_preserved (st : OState) (agent_id : AgentId) (k : AgentId)
    (h : alookup st.agents k = none) :
    alookup (stop_agent st agent_id).1.agents k = none := by
  rcases stop_agent_case st agent_id with ⟨heq, _⟩ | heq
  · rw [heq]
    exact h
  · rw [heq]
    exact alookup_aerase_none h

theorem distStopLoop_orphan (streamers : List String) :
    ∀ (snap : List (AgentId × AgentAssignment)) (st : OState) (n : Nat),
      (∀ q ∈ st.assignments, q.2.streamer ∉ streamers →
        (q ∈ snap ∨ alookup st.agents q.1 = none)) →
      nonmemberOrphaned (distStopLoop streamers snap st n).1 streamers := by
  intro snap
  induction snap with
  | nil =>
    intro st n hinv q hq hns
    rcases hinv q hq hns with h | h
    · exact absurd h (List.not_mem_nil q)
    · exact h
  | cons p rest ih =>
    intro st n hinv
    simp only [distStopLoop]
    split
    next hpmem =>
      refine ih st n ?_
      intro q hq hns
      rcases hinv q hq hns with hsnap | hnone
      · rcases List.mem_cons.mp hsnap with rfl | hr
        · exact absurd hpmem hns
        · exact Or.inl hr
      · exact Or.inr hnone
    next hpnot =>
      refine ih _ _ ?_
      intro q hq hns
      have hq0 : q ∈ st.assignments := stop_agent_assignments_subset st p.1 q hq
      rcases hinv q hq0 hns with hsnap | hnone
      · rcases List.mem_cons.mp hsnap with rfl | hr
        · right
          rcases stop_agent_case st q.1 with ⟨heq, hnone2⟩ | heq
          · rw [heq]
            exact hnone2
          · rw [heq] at hq
            exact absurd rfl (mem_aerase.mp hq).2
        · exact Or.inl hr
      · exact Or.inr (stop_agent_agents_none_preserved st p.1 q.1 hnone)

theorem enumFrom_snd_mem {α : Type} : ∀ (n : Nat) (l : List α) (q : Nat × α),
    q ∈ List.enumFrom n l → q.2 ∈ l := by
  intro n l
  induction l generalizing n with
  | nil =>
    intro q hq
    simp at hq
  | cons x xs ih =>
    intro q hq
    rw [List.enumFrom] at hq
    rcases List.mem_cons.mp hq with rfl | h
    · exact List.mem_cons_self x xs
    · exact List.mem_cons_of_mem x (ih (n + 1) q h)

theorem distSpawnLoop_orphan (maxc : Nat) (se : Nat → Option ScrapingError)
    (now : Nat) (streamers : List String) :
    ∀ (l : List (Nat × String)), (∀ q ∈ l, q.2 ∈ streamers) →
    ∀ (st : OState) (c : Nat), freshIdsOk st →
      nonmemberOrphaned st streamers →
      nonmemberOrphaned (distSpawnLoop maxc se now l st c).1 streamers := by
  intro l
  induction l with
  | nil => intro _ st c _ h; exact h
  | cons p rest ih =>
    obtain ⟨idx, s⟩ := p
    intro hl st c hwf h
    have hs : s ∈ streamers := hl (idx, s) (List.mem_cons_self _ _)
    have hl' : ∀ q ∈ rest, q.2 ∈ streamers := fun q hq => hl q (List.mem_cons_of_mem _ hq)
    simp only [distSpawnLoop]
    split
    · exact h
    · split
      · exact ih hl' st (c + 1) hwf h
      · rcases hsp : spawn_agent st s idx (se idx) now with ⟨res, st'⟩
        cases res with
        | ok a =>
          dsimp only
          have hwf' : freshIdsOk st' := by
            have h2 := spawn_agent_wf st s idx (se idx) now hwf
            rw [hsp] at h2
            exact h2
          refine ih hl' st' (c + 1) hwf' ?_
          obtain ⟨_, hst'⟩ := spawn_agent_ok_elim _ _ _ _ _ _ _ hsp
          intro q hq hns
          rw [hst'] at hq
          rcases mem_ainsert hq with rfl | hq2
          · exact absurd hs hns
          · have hnone := h q hq2 hns
            have hqn : q.1 ≠ st.nextId := Nat.ne_of_lt (hwf.2 q hq2)
            rw [hst']
            show alookup (ainsert st.agents st.nextId _) q.1 = none
            rw [alookup_ainsert_ne _ _ _ _ hqn]
            exact hnone
        | error e =>
          dsimp only
          have hst : st' = st := spawn_agent_error_state _ _ _ _ _ _ _ hsp
          refine ih hl' _ c ?_ ?_
          · show freshIdsOk { st' with errorCount := st'.errorCount + 1 }
            rw [hst]
            exact hwf
          · show nonmemberOrphaned { st' with errorCount := st'.errorCount + 1 } streamers
            rw [hst]
            exact h

theorem distStopLoop_noop (streamers : List String) :
    ∀ (snap : List (AgentId × AgentAssignment)) (st : OState) (n : Nat),
      (∀ q ∈ snap, q.2.streamer ∉ streamers → alookup st.agents q.1 = none) →
      distStopLoop streamers snap st n = (st, n) := by
  intro snap
  induction snap with
  | nil => intro st n _; rfl
  | cons p rest ih =>
    intro st n h
    simp only [distStopLoop]
    split
    · exact ih st n (fun q hq => h q (List.mem_cons_of_mem _ hq))
    next hpnot =>
      have hnone : alookup st.agents p.1 = none := h p (List.mem_cons_self _ _) hpnot
      have hstop : stop_agent st p.1 = (st, false) := by
        unfold stop_agent
        rw [hnone]
      rw [hstop]
      dsimp only
      have hn : (n + if false = true then 1 else 0) = n := by simp
      rw [hn]
      exact ih st n (fun q hq => h q (List.mem_cons_of_mem _ hq))

theorem distSpawnLoop_idem (maxc : Nat) (se1 : Nat → Option ScrapingError) (now1 : Nat) :
    ∀ (l : List (Nat × String)) (st : OState) (c : Nat),
      freshIdsOk st →
      (distSpawnLoop maxc se1 now1 l st c).1.errorCount = st.errorCount →
      ∀ (se2 : Nat → Option ScrapingError) (now2 : Nat),
        distSpawnLoop maxc se2 now2 l (distSpawnLoop maxc se1 now1 l st c).1 c
          = ((distSpawnLoop maxc se1 now1 l st c).1, 0) := by
  intro l
  induction l with
  | nil => intro st c _ _ se2 now2; rfl
  | cons p rest ih =>
    obtain ⟨idx, s⟩ := p
    intro st c hwf hec se2 now2
    by_cases hbreak : c ≥ maxc
    · have h1 : distSpawnLoop maxc se1 now1 ((idx, s) :: rest) st c = (st, 0) := by
        simp only [distSpawnLoop, if_pos hbreak]
      rw [h1]
      simp only [distSpawnLoop, if_pos hbreak]
    · by_cases hassigned : streamerAssigned st s = true
      · have h1 : distSpawnLoop maxc se1 now1 ((idx, s) :: rest) st c
            = distSpawnLoop maxc se1 now1 rest st (c + 1) := by
          simp only [distSpawnLoop, if_neg hbreak, if_pos hassigned]
        rw [h1] at hec ⊢
        have hassigned2 : streamerAssigned
            (distSpawnLoop maxc se1 now1 rest st (c + 1)).1 s = true :=
          distSpawnLoop_assigned_mono maxc se1 now1 rest st (c + 1) s hwf hassigned
        have h2 : distSpawnLoop maxc se2 now2 ((idx, s) :: rest)
              (distSpawnLoop maxc se1 now1 rest st (c + 1)).1 c
            = distSpawnLoop maxc se2 now2 rest
              (distSpawnLoop maxc se1 now1 rest st (c + 1)).1 (c + 1) := by
          simp only [distSpawnLoop, if_neg hbreak, if_pos hassigned2]
        rw [h2]
        exact ih st (c + 1) hwf hec se2 now2
      · have hnas : ¬ streamerAssigned st s = true := hassigned
        rcases hsp : spawn_agent st s idx (se1 idx) now1 with ⟨res, st'⟩
        cases res with
        | error e =>
          exfalso
          have hst : st' = st := spawn_agent_error_state _ _ _ _ _ _ _ hsp
          have h1 : distSpawnLoop maxc se1 now1 ((idx, s) :: rest) st c
              = distSpawnLoop maxc se1 now1 rest
                  { st' with errorCount := st'.errorCount + 1 } c := by
            simp only [distSpawnLoop, if_neg hbreak, if_neg hnas]
            rw [hsp]
          have hmono := distSpawnLoop_errorCount_mono maxc se1 now1 rest
            { st' with errorCount := st'.errorCount + 1 } c
          rw [h1] at hec
          have hec2 : st'.errorCount + 1 ≤ st.errorCount := by
            calc st'.errorCount + 1
                = ({ st' with errorCount := st'.errorCount + 1 } : OState).errorCount := rfl
              _ ≤ _ := hmono
              _ = st.errorCount := hec
          rw [hst] at hec2
          omega
        | ok newId =>
          obtain ⟨hnew, hst'⟩ := spawn_agent_ok_elim _ _ _ _ _ _ _ hsp
          have h1 : distSpawnLoop maxc se1 now1 ((idx, s) :: rest) st c
              = ((distSpawnLoop maxc se1 now1 rest st' (c + 1)).1,
                 (distSpawnLoop maxc se1 now1 rest st' (c + 1)).2 + 1) := by
            simp only [distSpawnLoop, if_neg hbreak, if_neg hnas]
            rw [hsp]
          rw [h1] at hec ⊢
          dsimp only at hec ⊢
          have hwf' : freshIdsOk st' := by
            have h2 := spawn_agent_wf st s idx (se1 idx) now1 hwf
            rw [hsp] at h2
            exact h2
          have hassignedSt' : streamerAssigned st' s = true := by
            rw [hst']
            show (ainsert st.assignments st.nextId _).any _ = true
            simp [ainsert, streamerAssigned]
          have hassignedS : streamerAssigned
              (distSpawnLoop maxc se1 now1 rest st' (c + 1)).1 s = true :=
            distSpawnLoop_assigned_mono maxc se1 now1 rest st' (c + 1) s hwf' hassignedSt'
          have h2 : distSpawnLoop maxc se2 now2 ((idx, s) :: rest)
                (distSpawnLoop maxc se1 now1 rest st' (c + 1)).1 c
              = distSpawnLoop maxc se2 now2 rest
                (distSpawnLoop maxc se1 now1 rest st' (c + 1)).1 (c + 1) := by
            simp only [distSpawnLoop, if_neg hbreak, if_pos hassignedS]
          rw [h2]
          have hec' : (distSpawnLoop maxc se1 now1 rest st' (c + 1)).1.errorCount
              = st'.errorCount := by
            have hfr : st'.errorCount = st.errorCount := by
              rw [hst']
            rw [hec, hfr]
          exact ih st' (c + 1) hwf' hec' se2 now2

/-- Claim C6: `distribute_agents` is idempotent.  If a first call (whose
spawns all succeeded, witnessed by an unchanged error counter) has run, a
second call with the configuration unchanged stops no agent, spawns no
agent, and returns the state of the first call unchanged. -/
theorem distribute_agents_idempotent (st : OState)
    (se1 : Nat → Option ScrapingError) (now1 : Nat)
    (hwf : freshIdsOk st)
    (hnoerr : (distribute_agents st se1 now1).st.errorCount = st.errorCount)
    (se2 : Nat → Option ScrapingError) (now2 : Nat) :
    distribute_agents (distribute_agents st se1 now1).st se2 now2
      = { st := (distribute_agents st se1 now1).st, stopped := 0, spawned := 0 } := by
  have hwf1 : freshIdsOk (distStopLoop st.config.streamers st.assignments st 0).1 :=
    distStopLoop_wf _ _ _ _ hwf
  have horph1 : nonmemberOrphaned (distStopLoop st.config.streamers st.assignments st 0).1
      st.config.streamers :=
    distStopLoop_orphan _ _ _ _ (fun q hq _ => Or.inl hq)
  have henum : ∀ q ∈ st.config.streamers.enum, q.2 ∈ st.config.streamers :=
    fun q hq => enumFrom_snd_mem 0 _ q hq
  have horph2 : nonmemberOrphaned
      (distSpawnLoop st.config.agents.max_concurrent se1 now1 st.config.streamers.enum
        (distStopLoop st.config.streamers st.assignments st 0).1 0).1
      st.config.streamers :=
    distSpawnLoop_orphan _ _ _ _ _ henum _ _ hwf1 horph1
  have hfr1 := distStopLoop_frame st.config.streamers st.assignments st 0
  have hfr2 := distSpawnLoop_frame st.config.agents.max_concurrent se1 now1
    st.config.streamers.enum (distStopLoop st.config.streamers st.assignments st 0).1 0
  have hst2ec : (distSpawnLoop st.config.agents.max_concurrent se1 now1
      st.config.streamers.enum
      (distStopLoop st.config.streamers st.assignments st 0).1 0).1.errorCount
      = (distStopLoop st.config.streamers st.assignments st 0).1.errorCount := by
    have hn : (distribute_agents st se1 now1).st.errorCount
        = (distSpawnLoop st.config.agents.max_concurrent se1 now1 st.config.streamers.enum
            (distStopLoop st.config.streamers st.assignments st 0).1 0).1.errorCount := rfl
    rw [hn] at hnoerr
    rw [hnoerr, hfr1.2.2.1]
  have hcfg2 : (distSpawnLoop st.config.agents.max_concurrent se1 now1
      st.config.streamers.enum
      (distStopLoop st.config.streamers st.assignments st 0).1 0).1.config
      = st.config :=
    hfr2.2.trans hfr1.2.1
  have hstopnoop : distStopLoop st.config.streamers
      (distSpawnLoop st.config.agents.max_concurrent se1 now1 st.config.streamers.enum
        (distStopLoop st.config.streamers st.assignments st 0).1 0).1.assignments
      (distSpawnLoop st.config.agents.max_concurrent se1 now1 st.config.streamers.enum
        (distStopLoop st.config.streamers st.assignments st 0).1 0).1 0
      = ((distSpawnLoop st.config.agents.max_concurrent se1 now1 st.config.streamers.enum
          (distStopLoop st.config.streamers st.assignments st 0).1 0).1, 0) :=
    distStopLoop_noop _ _ _ _ (fun q hq hns => horph2 q hq hns)
  have hspawnidem := distSpawnLoop_idem st.config.agents.max_concurrent se1 now1
    st.config.streamers.enum (distStopLoop st.config.streamers st.assignments st 0).1 0
    hwf1 hst2ec se2 now2
  show distribute_agents (distSpawnLoop st.config.agents.max_concurrent se1 now1
      st.config.streamers.enum (distStopLoop st.config.streamers st.assignments st 0).1 0).1
      se2 now2 = _
  unfold distribute_agents
  dsimp only
  rw [hcfg2, hstopnoop]
  dsimp only
  rw [hspawnidem]

/-- Witness for C6: with `max_concurrent = 2` and streamers a, b, c the
first distribution spawns agents for a and b; the second call stops nothing,
spawns nothing, and leaves the state unchanged. -/
theorem distribute_agents_idempotent_witness :
    distribute_agents
        (distribute_agents (AgentOrchestrator.new (sampleConfig 2 ["a", "b", "c"]))
          (fun _ => none) 0).st (fun _ => none) 1
      = { st := (distribute_agents (AgentOrchestrator.new (sampleConfig 2 ["a", "b", "c"]))
            (fun _ => none) 0).st
          stopped := 0
          spawned := 0 } :=
  distribute_agents_idempotent (AgentOrchestrator.new (sampleConfig 2 ["a", "b", "c"]))
    (fun _ => none) 0 (by decide) (by decide) (fun _ => none) 1
